import Mathlib

set_option maxRecDepth 100000

/-!
Verification development for the bcachefs-rs formatting tool.

The Rust sources are shallowly embedded: byte buffers become `List Nat`
(each entry one byte), little-endian scalar reads/writes become explicit
base-256 digit manipulation, and every fallible accessor returns an
`Outcome` that distinguishes the three ways a Rust accessor can finish:
a slice-indexing panic, an early `Err` return (buffer untouched), and a
successful write.
-/

/-- Mirror of `BchError` (src/lib.rs): only the constructors the embedded
accessors can produce.  `exhausted` is `BchError::Exhausted` (the
"buffer too small" class), `einval` is `BchError::Einval` (value does not
fit a bit range), `strE` is `BchError::Str` (the message / config-error
class). -/
inductive BchErr where
  | exhausted : BchErr
  | einval : BchErr
  | strE : BchErr
deriving DecidableEq, Repr

/-- Result of one Rust accessor on a byte buffer: `panicked` models a
slice-index panic, `errored e b` an early `Err(e)` return with the buffer
`b` untouched, `wrote b` a successful mutation leaving buffer `b`. -/
inductive Outcome where
  | panicked : Outcome
  | errored : BchErr → List Nat → Outcome
  | wrote : List Nat → Outcome
deriving DecidableEq, Repr

/-- Little-endian byte decomposition: `leBytes n v` is the list of the `n`
low base-256 digits of `v`, least significant first (the bytes
`byteorder::LittleEndian` stores for an `n`-byte scalar; the implicit
truncation to `n` bytes models the Rust integer width). -/
def leBytes : Nat → Nat → List Nat
  | 0, _ => []
  | n + 1, v => v % 256 :: leBytes n (v / 256)

/-- Value of a little-endian byte list (LSB first). -/
def bytesVal : List Nat → Nat
  | [] => 0
  | b :: bs => b + 256 * bytesVal bs

/-- Overwrite the bytes of `buf` starting at `start` with `src`
(out-of-range positions are silently dropped; callers guard with
`writeChecked`, which models the Rust slice-bounds panic). -/
def setBytes (buf : List Nat) (start : Nat) : List Nat → List Nat
  | [] => buf
  | b :: bs => setBytes (buf.set start b) (start + 1) bs

/-- The bytes `buf[start .. start+n)`. -/
def getBytes (buf : List Nat) (start n : Nat) : List Nat :=
  (buf.drop start).take n

/-- Little-endian read of `n` bytes at `start`. -/
def readLE (buf : List Nat) (start n : Nat) : Nat :=
  bytesVal (getBytes buf start n)

/-- Rust `buf[start..start+len].copy_from_slice(src)`: panics when the
range exceeds the buffer, otherwise writes. -/
def writeChecked (buf : List Nat) (start : Nat) (src : List Nat) : Outcome :=
  if start + src.length ≤ buf.length then Outcome.wrote (setBytes buf start src)
  else Outcome.panicked

@[simp] theorem leBytes_length (n v : Nat) : (leBytes n v).length = n := by
  induction n generalizing v with
  | zero => rfl
  | succ k ih => simp [leBytes, ih]

theorem bytesVal_leBytes (n v : Nat) : bytesVal (leBytes n v) = v % 256 ^ n := by
  induction n generalizing v with
  | zero => simp [leBytes, bytesVal, Nat.mod_one]
  | succ k ih =>
      have h2 : v % (256 * 256 ^ k) % 256 = v % 256 :=
        Nat.mod_mod_of_dvd v ⟨256 ^ k, rfl⟩
      have h3 : v % (256 * 256 ^ k) / 256 = v / 256 % 256 ^ k :=
        Nat.mod_mul_right_div_self v 256 (256 ^ k)
      calc bytesVal (leBytes (k + 1) v)
          = v % 256 + 256 * (v / 256 % 256 ^ k) := by simp [leBytes, bytesVal, ih]
        _ = v % 256 ^ (k + 1) := by
            rw [pow_succ', ← h2, ← h3]
            exact Nat.mod_add_div _ 256

@[simp] theorem setBytes_length (src : List Nat) (buf : List Nat) (s : Nat) :
    (setBytes buf s src).length = buf.length := by
  induction src generalizing buf s with
  | nil => rfl
  | cons b bs ih => simp [setBytes, ih]

theorem getElem?_setBytes_low (src buf : List Nat) (s i : Nat) (h : i < s) :
    (setBytes buf s src)[i]? = buf[i]? := by
  induction src generalizing buf s with
  | nil => rfl
  | cons b bs ih =>
      rw [setBytes, ih _ _ (by omega)]
      exact List.getElem?_set_ne (by omega)

theorem getElem?_setBytes_high (src buf : List Nat) (s i : Nat)
    (h : s + src.length ≤ i) :
    (setBytes buf s src)[i]? = buf[i]? := by
  induction src generalizing buf s with
  | nil => rfl
  | cons b bs ih =>
      simp only [List.length_cons] at h
      rw [setBytes, ih _ _ (by omega)]
      exact List.getElem?_set_ne (by omega)

theorem getElem?_setBytes_mid (src buf : List Nat) (s i : Nat)
    (h1 : s ≤ i) (h2 : i < s + src.length) (h3 : i < buf.length) :
    (setBytes buf s src)[i]? = src[i - s]? := by
  induction src generalizing buf s with
  | nil => simp at h2; omega
  | cons b bs ih =>
      by_cases hi : i = s
      · subst hi
        rw [setBytes, getElem?_setBytes_low _ _ _ _ (by omega)]
        simp [List.getElem?_set_self h3]
      · simp only [List.length_cons] at h2
        rw [setBytes, ih _ _ (by omega) (by omega) (by simpa using h3)]
        have hs : i - s = (i - s - 1) + 1 := by omega
        rw [hs, List.getElem?_cons_succ]
        congr 1

theorem getBytes_length (buf : List Nat) (s n : Nat) :
    (getBytes buf s n).length = min n (buf.length - s) := by
  simp [getBytes]

theorem getElem?_getBytes (buf : List Nat) (s n i : Nat) (h : i < n) :
    (getBytes buf s n)[i]? = buf[s + i]? := by
  simp [getBytes, List.getElem?_take_of_lt h, List.getElem?_drop]

theorem getBytes_setBytes (src buf : List Nat) (s : Nat)
    (h : s + src.length ≤ buf.length) :
    getBytes (setBytes buf s src) s src.length = src := by
  apply List.ext_getElem?
  intro i
  by_cases hi : i < src.length
  · rw [getElem?_getBytes _ _ _ _ hi,
      getElem?_setBytes_mid _ _ _ _ (by omega) (by omega) (by omega)]
    congr 1
    omega
  · have hl : (getBytes (setBytes buf s src) s src.length).length ≤ i := by
      rw [getBytes_length]
      omega
    rw [List.getElem?_eq_none hl, List.getElem?_eq_none (by omega)]

theorem readLE_setBytes (buf : List Nat) (s n v : Nat) (h : s + n ≤ buf.length) :
    readLE (setBytes buf s (leBytes n v)) s n = v % 256 ^ n := by
  have h2 : getBytes (setBytes buf s (leBytes n v)) s n = leBytes n v := by
    have := getBytes_setBytes (leBytes n v) buf s (by simpa using h)
    simpa using this
  rw [readLE, h2, bytesVal_leBytes]

theorem bytesVal_lt (l : List Nat) (h : ∀ b ∈ l, b < 256) :
    bytesVal l < 256 ^ l.length := by
  induction l with
  | nil => simp [bytesVal]
  | cons b bs ih =>
      simp only [bytesVal, List.length_cons, pow_succ']
      have hb := h b (by simp)
      have h1 : bytesVal bs + 1 ≤ 256 ^ bs.length :=
        ih (fun x hx => h x (by simp [hx]))
      calc b + 256 * bytesVal bs < 256 * (bytesVal bs + 1) := by omega
        _ ≤ 256 * 256 ^ bs.length := Nat.mul_le_mul_left _ h1

theorem getBytes_bytes_lt (buf : List Nat) (s n : Nat)
    (h : ∀ b ∈ buf, b < 256) : ∀ b ∈ getBytes buf s n, b < 256 := fun b hb =>
  h b (List.mem_of_mem_drop (List.mem_of_mem_take hb))

theorem readLE_lt (buf : List Nat) (s n : Nat) (h : ∀ b ∈ buf, b < 256) :
    readLE buf s n < 256 ^ n := by
  have h1 := bytesVal_lt (getBytes buf s n) (getBytes_bytes_lt buf s n h)
  have h2 : (getBytes buf s n).length ≤ n := by
    rw [getBytes_length]; omega
  exact lt_of_lt_of_le h1 (Nat.pow_le_pow_right (by norm_num) h2)

/-- Rust `!x` on `u64` (for `x < 2^64`): flip the low 64 bits. -/
def not64 (x : Nat) : Nat := x ^^^ (2 ^ 64 - 1)

/-- The 16 bytes of the bcachefs magic UUID as stored on disk
(`magic().to_u128_le()` written little-endian; byte list taken from the
crate's own `test_sb`/`test_layout` fixtures). -/
def magicBytes : List Nat :=
  [0xc6, 0x85, 0x73, 0xf6, 0x4e, 0x1a, 0x45, 0xca,
   0x82, 0x65, 0xf5, 0x7f, 0x48, 0xba, 0x6d, 0x81]

/-- `SuperBlock<T>`: the backing buffer plus the variable-field cursor
`last_field_offset` (starts at 0 in `SuperBlock::from`). -/
structure SuperBlockSt where
  lastFieldOffset : Nat
  buffer : List Nat
deriving DecidableEq, Repr

/-- Outcome of an accessor that may also advance the field cursor. -/
inductive StOutcome where
  | panicked : StOutcome
  | errored : BchErr → SuperBlockSt → StOutcome
  | ok : SuperBlockSt → StOutcome
deriving DecidableEq, Repr

/-- `SuperBlock::set_version` (offsets 16..18). -/
def SuperBlock.set_version (version : Nat) (buf : List Nat) : Outcome :=
  if buf.length < 18 then Outcome.errored BchErr.exhausted buf
  else writeChecked buf 16 (leBytes 2 version)

/-- `SuperBlock::set_version_min` (offsets 18..20). -/
def SuperBlock.set_version_min (version : Nat) (buf : List Nat) : Outcome :=
  if buf.length < 20 then Outcome.errored BchErr.exhausted buf
  else writeChecked buf 18 (leBytes 2 version)

/-- `SuperBlock::set_magic` (offsets 24..40). -/
def SuperBlock.set_magic (buf : List Nat) : Outcome :=
  if buf.length < 40 then Outcome.errored BchErr.exhausted buf
  else writeChecked buf 24 magicBytes

/-- `SuperBlock::set_uuid` (offsets 40..56); `uuid` is the u128
little-endian value of the UUID. -/
def SuperBlock.set_uuid (uuid : Nat) (buf : List Nat) : Outcome :=
  if buf.length < 56 then Outcome.errored BchErr.exhausted buf
  else writeChecked buf 40 (leBytes 16 uuid)

/-- `SuperBlock::set_user_uuid` (offsets 56..72). -/
def SuperBlock.set_user_uuid (uuid : Nat) (buf : List Nat) : Outcome :=
  if buf.length < 72 then Outcome.errored BchErr.exhausted buf
  else writeChecked buf 56 (leBytes 16 uuid)

/-- `SuperBlock::set_label` (offsets 72..104, capacity `LABEL_SIZE` = 32).
Both failure modes return `BchError::Exhausted`. -/
def SuperBlock.set_label (label : List Nat) (buf : List Nat) : Outcome :=
  if buf.length < 104 then Outcome.errored BchErr.exhausted buf
  else if 32 < label.length then Outcome.errored BchErr.exhausted buf
  else writeChecked buf 72 label

/-- `SuperBlock::set_offset` (offsets 104..112). -/
def SuperBlock.set_offset (offset : Nat) (buf : List Nat) : Outcome :=
  if buf.length < 112 then Outcome.errored BchErr.exhausted buf
  else writeChecked buf 104 (leBytes 8 offset)

/-- `SuperBlock::set_block_size` (offsets 120..122). -/
def SuperBlock.set_block_size (blockSize : Nat) (buf : List Nat) : Outcome :=
  if buf.length < 122 then Outcome.errored BchErr.exhausted buf
  else writeChecked buf 120 (leBytes 2 blockSize)

/-- `SuperBlock::set_dev_idx`: the guard compares against `DEV_IDX` = 122
with `<` although byte 122 itself is written. -/
def SuperBlock.set_dev_idx (val : Nat) (buf : List Nat) : Outcome :=
  if buf.length < 122 then Outcome.errored BchErr.exhausted buf
  else writeChecked buf 122 (leBytes 1 val)

/-- `SuperBlock::set_u64s`: writes `last_field_offset / 8` as a u32 at
`U64S` = 124..128, but the guard compares against `DEV_IDX` = 122. -/
def SuperBlock.set_u64s (sb : SuperBlockSt) : Outcome :=
  if sb.buffer.length < 122 then Outcome.errored BchErr.exhausted sb.buffer
  else writeChecked sb.buffer 124 (leBytes 4 (sb.lastFieldOffset / 8))

/-- `SuperBlock::set_nr_devices`: the guard compares against
`NR_DEVS` = 123 with `<` although byte 123 itself is written. -/
def SuperBlock.set_nr_devices (val : Nat) (buf : List Nat) : Outcome :=
  if buf.length < 123 then Outcome.errored BchErr.exhausted buf
  else writeChecked buf 123 (leBytes 1 val)

/-- `SuperBlock::set_time_base_p` (offsets 140..144). -/
def SuperBlock.set_time_base_p (val : Nat) (buf : List Nat) : Outcome :=
  if buf.length < 144 then Outcome.errored BchErr.exhausted buf
  else writeChecked buf 140 (leBytes 4 val)

/-- `SuperBlock::set_feature` (8 bytes at `FEATURES.start + idx*8`). -/
def SuperBlock.set_feature (idx val : Nat) (buf : List Nat) : Outcome :=
  if buf.length < 208 + idx * 8 + 8 then Outcome.errored BchErr.exhausted buf
  else writeChecked buf (208 + idx * 8) (leBytes 8 val)

/-- `SuperBlock::set_flags` (copies the flags buffer at offset 144). -/
def SuperBlock.set_flags (flagsBuf : List Nat) (buf : List Nat) : Outcome :=
  if buf.length < 144 + flagsBuf.length then Outcome.errored BchErr.exhausted buf
  else writeChecked buf 144 flagsBuf

/-- `SuperBlock::set_layout` (copies the layout buffer at offset
`LAYOUT.start` = 240). -/
def SuperBlock.set_layout (layoutBuf : List Nat) (buf : List Nat) : Outcome :=
  if buf.length < 240 + layoutBuf.length then Outcome.errored BchErr.exhausted buf
  else writeChecked buf 240 layoutBuf

/-- `SuperBlock::add_field`: appends an 8-byte header (`u64s` count and
type, two little-endian u32s) plus the payload at `FIELDS` = 752 +
cursor, then advances the cursor by payload length + 8.  The two header
writes are inside the range covered by the guard, so they are plain
`setBytes`. -/
def SuperBlock.add_field (ty : Nat) (field : List Nat) (sb : SuperBlockSt) : StOutcome :=
  let fieldBufLen := field.length + 8
  let start := 752 + sb.lastFieldOffset + 8
  if sb.buffer.length < start + field.length then StOutcome.errored BchErr.exhausted sb
  else
    let headerStart := 752 + sb.lastFieldOffset
    let b1 := setBytes sb.buffer headerStart (leBytes 4 (fieldBufLen / 8))
    let b2 := setBytes b1 (headerStart + 4) (leBytes 4 ty)
    StOutcome.ok ⟨sb.lastFieldOffset + fieldBufLen, setBytes b2 start field⟩

/-- `SuperBlockLayout::set_magic` (offsets 0..16). -/
def SuperBlockLayout.set_magic (buf : List Nat) : Outcome :=
  if buf.length < 16 then Outcome.errored BchErr.exhausted buf
  else writeChecked buf 0 magicBytes

/-- `SuperBlockLayout::set_layout_type`: the guard compares against
`LAYOUT_TYPE` = 16 with `<` although byte 16 itself is written. -/
def SuperBlockLayout.set_layout_type (val : Nat) (buf : List Nat) : Outcome :=
  if buf.length < 16 then Outcome.errored BchErr.exhausted buf
  else writeChecked buf 16 (leBytes 1 val)

/-- `SuperBlockLayout::set_sb_max_size` (byte 17, guard `< 17`). -/
def SuperBlockLayout.set_sb_max_size (val : Nat) (buf : List Nat) : Outcome :=
  if buf.length < 17 then Outcome.errored BchErr.exhausted buf
  else writeChecked buf 17 (leBytes 1 val)

/-- `SuperBlockLayout::set_nr_superblocks` (byte 18, guard `< 18`). -/
def SuperBlockLayout.set_nr_superblocks (val : Nat) (buf : List Nat) : Outcome :=
  if buf.length < 18 then Outcome.errored BchErr.exhausted buf
  else writeChecked buf 18 (leBytes 1 val)

/-- `SuperBlockLayout::set_sb_offset` (8 bytes at `24 + idx*8`). -/
def SuperBlockLayout.set_sb_offset (idx val : Nat) (buf : List Nat) : Outcome :=
  if buf.length < 24 + idx * 8 + 8 then Outcome.errored BchErr.exhausted buf
  else writeChecked buf (24 + idx * 8) (leBytes 8 val)

/-- A member flag bitmask: word index within the member's flags block and
the bit range `lo..hi` inside that 64-bit word (Rust
`MemberFlag(usize, Range<u64>)`). -/
structure MemberFlag where
  word : Nat
  lo : Nat
  hi : Nat
deriving DecidableEq, Repr

def MemberFlag.REPLACEMENT : MemberFlag := ⟨0, 10, 14⟩

def MemberFlag.DISCARD : MemberFlag := ⟨0, 14, 15⟩

def MemberFlag.DATA_ALLOWED : MemberFlag := ⟨0, 15, 20⟩

def MemberFlag.GROUP : MemberFlag := ⟨0, 20, 28⟩

def MemberFlag.DURABILITY : MemberFlag := ⟨0, 28, 30⟩

/-!
Member-field accessors view the tail slice `&mut member_buf[base..]`;
`base` is the slice start, so the Rust slice length is
`buf.length - base`.
-/

/-- `MemberField::set_uuid`: writes 16 bytes at relative offset 0, but the
guard mistakenly uses `sb_offsets::UUID.end` = 56 as the required
length. -/
def MemberField.set_uuid (base uuid : Nat) (buf : List Nat) : Outcome :=
  if buf.length - base < 56 then Outcome.errored BchErr.exhausted buf
  else writeChecked buf base (leBytes 16 uuid)

/-- `MemberField::set_n_buckets` (relative offsets 16..24). -/
def MemberField.set_n_buckets (base val : Nat) (buf : List Nat) : Outcome :=
  if buf.length - base < 24 then Outcome.errored BchErr.exhausted buf
  else writeChecked buf (base + 16) (leBytes 8 val)

/-- `MemberField::set_first_bucket` (relative offsets 24..26). -/
def MemberField.set_first_bucket (base val : Nat) (buf : List Nat) : Outcome :=
  if buf.length - base < 26 then Outcome.errored BchErr.exhausted buf
  else writeChecked buf (base + 24) (leBytes 2 val)

/-- `MemberField::set_bucket_size` (relative offsets 26..28). -/
def MemberField.set_bucket_size (base val : Nat) (buf : List Nat) : Outcome :=
  if buf.length - base < 28 then Outcome.errored BchErr.exhausted buf
  else writeChecked buf (base + 26) (leBytes 2 val)

/-- `MemberField::set_flag`: read-modify-write of the 64-bit word at
relative offset `FLAGS.start + word*8` = `40 + word*8`; rejects values
wider than the bit range with `Einval` before touching the buffer. -/
def MemberField.set_flag (base : Nat) (flag : MemberFlag) (val : Nat)
    (buf : List Nat) : Outcome :=
  let mx := (1 <<< (flag.hi - flag.lo)) - 1
  let start := 40 + flag.word * 8
  if buf.length - base < start + 8 ∨ 56 < start + 8 then
    Outcome.errored BchErr.exhausted buf
  else if mx < val then Outcome.errored BchErr.einval buf
  else
    let field := readLE buf (base + start) 8
    let field2 := (field &&& not64 (mx <<< flag.lo)) ||| (val <<< flag.lo)
    writeChecked buf (base + start) (leBytes 8 field2)

/-- A superblock flag bitmask (Rust `SuperBlockFlag(usize, Range<u64>)`). -/
structure SuperBlockFlag where
  word : Nat
  lo : Nat
  hi : Nat
deriving DecidableEq, Repr

def SuperBlockFlag.ERROR_ACTION : SuperBlockFlag := ⟨0, 8, 12⟩

def SuperBlockFlag.BTREE_NODE_SIZE : SuperBlockFlag := ⟨0, 12, 28⟩

def SuperBlockFlag.GC_RESERVE : SuperBlockFlag := ⟨0, 28, 33⟩

def SuperBlockFlag.META_REPLICAS_WANT : SuperBlockFlag := ⟨0, 48, 52⟩

def SuperBlockFlag.DATA_REPLICAS_WANT : SuperBlockFlag := ⟨0, 52, 56⟩

def SuperBlockFlag.POSIX_ACL : SuperBlockFlag := ⟨0, 56, 57⟩

def SuperBlockFlag.USRQUOTA : SuperBlockFlag := ⟨0, 57, 58⟩

def SuperBlockFlag.GRPQUOTA : SuperBlockFlag := ⟨0, 57, 58⟩

def SuperBlockFlag.PRJQUOTA : SuperBlockFlag := ⟨0, 57, 58⟩

def SuperBlockFlag.META_REPLICAS_REQ : SuperBlockFlag := ⟨1, 20, 24⟩

def SuperBlockFlag.DATA_REPLICAS_REQ : SuperBlockFlag := ⟨1, 24, 28⟩

def SuperBlockFlag.PROMOTE_TARGET : SuperBlockFlag := ⟨1, 28, 40⟩

def SuperBlockFlag.FOREGROUND_TARGET : SuperBlockFlag := ⟨1, 40, 52⟩

def SuperBlockFlag.BACKGROUND_TARGET : SuperBlockFlag := ⟨1, 52, 64⟩

def SuperBlockFlag.METADATA_TARGET : SuperBlockFlag := ⟨3, 16, 28⟩

/-- `SuperBlockFlags::set_flag`: read-modify-write of the 64-bit word at
offset `word*8` of the flags buffer; values wider than the bit range are
rejected with `Einval` before any mutation. -/
def SuperBlockFlags.set_flag (flag : SuperBlockFlag) (val : Nat)
    (buf : List Nat) : Outcome :=
  let mx := (1 <<< (flag.hi - flag.lo)) - 1
  let start := flag.word * 8
  if buf.length < start + 8 then Outcome.errored BchErr.exhausted buf
  else if mx < val then Outcome.errored BchErr.einval buf
  else
    let field := readLE buf start 8
    let field2 := (field &&& not64 (mx <<< flag.lo)) ||| (val <<< flag.lo)
    writeChecked buf start (leBytes 8 field2)

/-- `Features::ALWAYS`: features always set from userspace tools. -/
def Features.ALWAYS : Nat :=
  (1 <<< 9) ||| (1 <<< 12) ||| (1 <<< 13) ||| (1 <<< 17) ||| (1 <<< 18)

/-- `Features::ALL`: bitset of all available features. -/
def Features.ALL : Nat :=
  Features.ALWAYS ||| (1 <<< 7) ||| (1 <<< 11) ||| (1 <<< 15) ||| (1 <<< 16)

/-- `DataTypes::DEFAULT` = `SB | JOURNAL | BTREE | USER`. -/
def DataTypes.DEFAULT : Nat :=
  (1 <<< 1) ||| (1 <<< 2) ||| (1 <<< 3) ||| (1 <<< 4)

/-- The halving fallback of `format` (src/format.rs lines 215-217):
`while size < min_size(bucket_size) { bucket_size /= 2; }` with
`min_size(b) = b * MIN_NR_NBUCKETS` and `MIN_NR_NBUCKETS = 64`. -/
def shrinkBucket (size : Nat) (b : Nat) : Nat :=
  if h : size < 64 * b then shrinkBucket size (b / 2) else b
termination_by b
decreasing_by omega

/-- Result of the per-device bucket-size computation in `format`
(src/format.rs lines 195-234).  `panicked` models a Rust
division-by-zero panic; the three error constructors correspond to the
distinct `BchError::Str` messages ("too small",
"block size ... to small for bucket size", "too few buckets"). -/
inductive PlanResult where
  | panicked : PlanResult
  | tooSmall : PlanResult
  | blockTooSmall : PlanResult
  | tooFewBuckets : PlanResult
  | ok : Nat → Nat → PlanResult
deriving DecidableEq, Repr

/-- The tail of the planner after the bucket size is fixed:
`nbuckets = size / bucket_size` (Rust panics when `bucket_size = 0`),
then the `bucket_size < (args.block_size as u64) >> 9` check and the
`nbuckets < MIN_NR_NBUCKETS` check, in that order. -/
def finishPlan (size rb bucket : Nat) : PlanResult :=
  if bucket = 0 then PlanResult.panicked
  else if bucket < rb / 512 then PlanResult.blockTooSmall
  else if size / bucket < 64 then PlanResult.tooFewBuckets
  else PlanResult.ok bucket (size / bucket)

/-- The bucket size chosen by `format` once the "too small" check has
passed.  `flog2` stands for the Rust float computation
`(x as f64).log2() as u64`, injected as a parameter so that all theorems
hold for every implementation of it (`flog2 1 = 0` is the only value any
claim depends on, and every IEEE `log2` returns exactly 0.0 at 1.0).
Inputs: `size` in 512-byte sectors (`get_size(...)? >> 9`), `devBs` the
device block size from `get_blocksize`, `rb = args.block_size`. -/
def bucketChoice (flog2 : Nat → Nat) (size devBs rb : Nat) : Nat :=
  if 64 * max (max rb (devBs * 512)) 512 ≤ size then
    min (max (max rb (devBs * 512)) 512 * max 1 (flog2 (size / (64 * rb)) / 4)) 2048
  else shrinkBucket size (max (max rb (devBs * 512)) 512)

/-- The whole per-device bucket plan of `format` (src/format.rs lines
195-234): `bucket = max(args.block_size, device_block_size << 9)`; fail
"too small" if `size < 64 * bucket`; clamp to `MIN_BLOCK_SIZE = 512`;
grow by the log2 scale (or halve, on the defensive path); then the two
final checks.  The second branch models the Rust division-by-zero panic
in `size / min_size(args.block_size)` when `args.block_size = 0`. -/
def planBuckets (flog2 : Nat → Nat) (size devBs rb : Nat) : PlanResult :=
  if size < 64 * max rb (devBs * 512) then PlanResult.tooSmall
  else if 64 * rb = 0 ∧ 64 * max (max rb (devBs * 512)) 512 ≤ size then
    PlanResult.panicked
  else finishPlan size rb (bucketChoice flog2 size devBs rb)

/-- How a call to `format_device` can finish: panic (encryption branch),
`std::process::exit(1)` after a failed device probe, exit after a failed
`format`, normal return after `format` ran, or normal return without
`format` ever being invoked. -/
inductive FdOutcome where
  | panicked : FdOutcome
  | exitedProbe : Nat → FdOutcome
  | exitedFormat : FdOutcome
  | formatted : FdOutcome
  | skipped : FdOutcome
deriving DecidableEq, Repr

/-- Control flow of `format_device` (src/format.rs lines 380-398).  The
environment is abstracted: `probeOk i` tells whether `check_device`
succeeds on the i-th device, `formatOk` whether `format` would succeed.
Note the source nests BOTH the probe loop AND the `format(args)` call
inside `if !args.force { .. }`. -/
def format_device (encrypted noPassphrase force : Bool) (probeOk : Nat → Bool)
    (nDevices : Nat) (formatOk : Bool) : FdOutcome :=
  if encrypted && !noPassphrase then FdOutcome.panicked
  else if !force then
    match (List.range nDevices).find? (fun i => !probeOk i) with
    | some i => FdOutcome.exitedProbe i
    | none => if formatOk then FdOutcome.formatted else FdOutcome.exitedFormat
  else FdOutcome.skipped

/-- C1: with `force` set, `format_device` (src/format.rs lines 380-398)
returns without validating, zeroing, or writing anything: the call to
`format(args)` is nested inside `if !args.force { .. }`, so forcing
skips formatting entirely instead of skipping only the probe.  Without
`force` (all probes passing) the same inputs do reach `format`. -/
theorem format_device_force_skips_format :
    format_device false false true (fun _ => true) 2 true = FdOutcome.skipped ∧
    format_device false false false (fun _ => true) 2 true = FdOutcome.formatted ∧
    FdOutcome.skipped ≠ FdOutcome.formatted := by
  decide

/-- C3: four record accessors read or write past the end of the buffer
(modelled as a Rust slice-index panic) instead of returning
`BufferTooSmall`, because their length guards use the wrong bound:
`SuperBlock::set_u64s` on buffers of length 122 and 124 (guard checks
`DEV_IDX` = 122 but writes bytes 124..128), `SuperBlock::set_nr_devices`
on length 123, `SuperBlock::set_dev_idx` on length 122, and
`SuperBlockLayout::set_layout_type` on length 16 (guards use `<` where
the written byte index itself must be below the length). -/
theorem accessor_bounds_panics :
    SuperBlock.set_u64s ⟨0, List.replicate 124 0⟩ = Outcome.panicked ∧
    SuperBlock.set_u64s ⟨0, List.replicate 122 0⟩ = Outcome.panicked ∧
    SuperBlock.set_nr_devices 1 (List.replicate 123 0) = Outcome.panicked ∧
    SuperBlock.set_dev_idx 1 (List.replicate 122 0) = Outcome.panicked ∧
    SuperBlockLayout.set_layout_type 0 (List.replicate 16 0) = Outcome.panicked := by
  decide

/-- C10: `USRQUOTA`, `GRPQUOTA` and `PRJQUOTA` are all declared as word 0,
bits 57..58, so `SuperBlockFlags::set_flag` behaves identically for the
three quota toggles on every buffer and value: the three quota settings
cannot be stored independently. -/
theorem quota_flags_alias :
    SuperBlockFlag.USRQUOTA = ⟨0, 57, 58⟩ ∧
    SuperBlockFlag.USRQUOTA = SuperBlockFlag.GRPQUOTA ∧
    SuperBlockFlag.GRPQUOTA = SuperBlockFlag.PRJQUOTA ∧
    ∀ val buf,
      SuperBlockFlags.set_flag SuperBlockFlag.USRQUOTA val buf =
        SuperBlockFlags.set_flag SuperBlockFlag.GRPQUOTA val buf ∧
      SuperBlockFlags.set_flag SuperBlockFlag.GRPQUOTA val buf =
        SuperBlockFlags.set_flag SuperBlockFlag.PRJQUOTA val buf :=
  ⟨rfl, rfl, rfl, fun _ _ => ⟨rfl, rfl⟩⟩

/-- C9 counterexample: `SuperBlock::set_label` with a 33-byte label on a
104-byte buffer fails with `BchError::Exhausted` — the BufferTooSmall
error class — and not with the `Str`/ConfigError class the claim
names. -/
theorem set_label_oversized_not_config_error :
    SuperBlock.set_label (List.replicate 33 97) (List.replicate 104 0) =
      Outcome.errored BchErr.exhausted (List.replicate 104 0) ∧
    BchErr.exhausted ≠ BchErr.strE := by
  decide

/-- C9 (amended): on any buffer of length ≥ 104, a label longer than 32
bytes makes `set_label` fail with `BufferTooSmall` (`Exhausted`), the
buffer left untouched, while a label of at most 32 bytes succeeds and
writes the label at offsets 72..72+len. -/
theorem set_label_spec (label buf : List Nat) (hbuf : 104 ≤ buf.length) :
    (32 < label.length →
      SuperBlock.set_label label buf = Outcome.errored BchErr.exhausted buf) ∧
    (label.length ≤ 32 →
      SuperBlock.set_label label buf = Outcome.wrote (setBytes buf 72 label)) := by
  constructor
  · intro h
    unfold SuperBlock.set_label
    rw [if_neg (by omega), if_pos h]
  · intro h
    unfold SuperBlock.set_label
    rw [if_neg (by omega), if_neg (by omega)]
    unfold writeChecked
    rw [if_pos (by omega)]

/-- Witness for `set_label_spec` at a 33-byte label and a 104-byte
buffer. -/
theorem set_label_spec_witness :
    104 ≤ (List.replicate 104 0 : List Nat).length ∧
    ((32 < (List.replicate 33 97 : List Nat).length →
       SuperBlock.set_label (List.replicate 33 97) (List.replicate 104 0) =
         Outcome.errored BchErr.exhausted (List.replicate 104 0)) ∧
     ((List.replicate 33 97 : List Nat).length ≤ 32 →
       SuperBlock.set_label (List.replicate 33 97) (List.replicate 104 0) =
         Outcome.wrote (setBytes (List.replicate 104 0) 72 (List.replicate 33 97)))) :=
  ⟨by decide,
   set_label_spec (List.replicate 33 97) (List.replicate 104 0) (by decide)⟩

theorem bucketChoice_ge (flog2 : Nat → Nat) (size devBs rb : Nat)
    (hrb : 512 ≤ rb) (hreach : 64 * max rb (devBs * 512) ≤ size) :
    512 ≤ bucketChoice flog2 size devBs rb := by
  have hb1 : max (max rb (devBs * 512)) 512 = max rb (devBs * 512) :=
    max_eq_left (le_max_of_le_left hrb)
  unfold bucketChoice
  rw [hb1, if_pos hreach]
  have h1 : 512 ≤ max rb (devBs * 512) := le_max_of_le_left hrb
  have h2 : max rb (devBs * 512) ≤
      max rb (devBs * 512) * max 1 (flog2 (size / (64 * rb)) / 4) :=
    Nat.le_mul_of_pos_right _ (lt_of_lt_of_le Nat.zero_lt_one (le_max_left _ _))
  exact le_min (le_trans h1 h2) (by norm_num)

/-- C2: for every requested block size in the u16 domain with the
spec's lower bound 512, once the planner has passed the "too small"
check (so `nbuckets` is computed), the "block size too small for bucket
size" failure occurs exactly when `bucket_size * 512 < rb` — and in
fact neither side can occur, so planning always continues to the
bucket-count check. -/
theorem planner_block_size_check_iff (flog2 : Nat → Nat) (size devBs rb : Nat)
    (hrb : 512 ≤ rb) (hu16 : rb < 65536)
    (hreach : 64 * max rb (devBs * 512) ≤ size) :
    (planBuckets flog2 size devBs rb = PlanResult.blockTooSmall ↔
      bucketChoice flog2 size devBs rb * 512 < rb) ∧
    (planBuckets flog2 size devBs rb = PlanResult.tooFewBuckets ∨
      ∃ n, planBuckets flog2 size devBs rb =
        PlanResult.ok (bucketChoice flog2 size devBs rb) n) := by
  have hb := bucketChoice_ge flog2 size devBs rb hrb hreach
  have hplan : planBuckets flog2 size devBs rb =
      finishPlan size rb (bucketChoice flog2 size devBs rb) := by
    unfold planBuckets
    rw [if_neg (Nat.not_lt.mpr hreach), if_neg (by rintro ⟨h0, -⟩; omega)]
  rw [hplan]
  unfold finishPlan
  rw [if_neg (by omega), if_neg (by omega)]
  refine ⟨⟨fun h => ?_, fun h => absurd h (by omega)⟩, ?_⟩
  · split at h
    · exact absurd h (by simp)
    · exact absurd h (by simp)
  · split
    · exact Or.inl rfl
    · exact Or.inr ⟨_, rfl⟩

/-- Witness for `planner_block_size_check_iff` with `flog2 = Nat.log2`,
a device of 64·512 sectors, native block size 1 sector, and rb = 512. -/
theorem planner_block_size_check_iff_witness :
    (512 ≤ 512 ∧ 512 < 65536 ∧ 64 * max 512 (1 * 512) ≤ 64 * 512) ∧
    ((planBuckets Nat.log2 (64 * 512) 1 512 = PlanResult.blockTooSmall ↔
       bucketChoice Nat.log2 (64 * 512) 1 512 * 512 < 512) ∧
     (planBuckets Nat.log2 (64 * 512) 1 512 = PlanResult.tooFewBuckets ∨
       ∃ n, planBuckets Nat.log2 (64 * 512) 1 512 =
         PlanResult.ok (bucketChoice Nat.log2 (64 * 512) 1 512) n)) :=
  ⟨⟨by norm_num, by norm_num, by norm_num⟩,
   planner_block_size_check_iff Nat.log2 (64 * 512) 1 512 (by norm_num)
     (by norm_num) (by norm_num)⟩

/-- C5: the bucket planner is a pure function of its inputs (identical
inputs give identical results for a fixed `flog2`, the injected float
log2); whenever it succeeds, `nbuckets * bucket_size ≤ size`,
`nbuckets ≥ 64` and `bucket_size ≥ 512` (the last under the spec's
block-size domain `rb ≥ 512`); and at the boundary (`nb = rb = 512`
bytes, i.e. device block size 1 sector), a device of exactly 64·512
sectors passes with `(bucket_size, nbuckets) = (512, 64)` while one of
64·512 − 1 sectors fails with the "too small" `ConfigError`. -/
theorem planner_deterministic_invariants (flog2 : Nat → Nat)
    (size devBs rb : Nat) (hrb : 512 ≤ rb) (hf : flog2 1 = 0) :
    (∀ s2 d2 r2, s2 = size → d2 = devBs → r2 = rb →
      planBuckets flog2 s2 d2 r2 = planBuckets flog2 size devBs rb) ∧
    (∀ b n, planBuckets flog2 size devBs rb = PlanResult.ok b n →
      n * b ≤ size ∧ 64 ≤ n ∧ 512 ≤ b) ∧
    planBuckets flog2 (64 * 512) 1 512 = PlanResult.ok 512 64 ∧
    planBuckets flog2 (64 * 512 - 1) 1 512 = PlanResult.tooSmall := by
  refine ⟨fun s2 d2 r2 hs hd hr => by rw [hs, hd, hr], ?_, ?_, ?_⟩
  · intro b n h
    by_cases hreach : size < 64 * max rb (devBs * 512)
    · unfold planBuckets at h
      rw [if_pos hreach] at h
      exact absurd h (by simp)
    · have hreach' := Nat.not_lt.mp hreach
      have hb := bucketChoice_ge flog2 size devBs rb hrb hreach'
      unfold planBuckets at h
      rw [if_neg hreach, if_neg (by rintro ⟨h0, -⟩; omega)] at h
      unfold finishPlan at h
      rw [if_neg (by omega)] at h
      split at h
      · exact absurd h (by simp)
      · split at h
        · exact absurd h (by simp)
        · rename_i hfew
          injection h with h1 h2
          subst h1
          subst h2
          exact ⟨Nat.div_mul_le_self size _, by omega, hb⟩
  · have h1 : (64 * 512 : Nat) / (64 * 512) = 1 := by norm_num
    simp only [planBuckets, bucketChoice, finishPlan, h1, hf]
    norm_num
  · unfold planBuckets
    rw [if_pos (by norm_num)]

/-- Witness for `planner_deterministic_invariants` with the constant-zero
stand-in for the float log2, a 64·512-sector device, 1-sector native
block size and rb = 512. -/
theorem planner_deterministic_invariants_witness :
    (512 ≤ 512 ∧ (fun _ : Nat => 0) 1 = 0) ∧
    ((∀ s2 d2 r2, s2 = 64 * 512 → d2 = 1 → r2 = 512 →
       planBuckets (fun _ => 0) s2 d2 r2 =
         planBuckets (fun _ => 0) (64 * 512) 1 512) ∧
     (∀ b n, planBuckets (fun _ => 0) (64 * 512) 1 512 = PlanResult.ok b n →
       n * b ≤ 64 * 512 ∧ 64 ≤ n ∧ 512 ≤ b) ∧
     planBuckets (fun _ => 0) (64 * 512) 1 512 = PlanResult.ok 512 64 ∧
     planBuckets (fun _ => 0) (64 * 512 - 1) 1 512 = PlanResult.tooSmall) :=
  ⟨⟨by norm_num, rfl⟩,
   planner_deterministic_invariants (fun _ => 0) (64 * 512) 1 512 (by norm_num)
     rfl⟩

/-- Bit decomposition of the masked read-modify-write word computed by
`set_flag`: inside `lo..hi` the new word carries the bits of `v`,
outside it carries the bits of the original word (64-bit view). -/
theorem setWord_testBit (F v lo hi : Nat) (hlh : lo ≤ hi) (hhi : hi ≤ 64)
    (hF : F < 2 ^ 64) (hv : v < 2 ^ (hi - lo)) (j : Nat) :
    ((F &&& not64 (((1 <<< (hi - lo)) - 1) <<< lo)) ||| (v <<< lo)).testBit j =
      if lo ≤ j ∧ j < hi then v.testBit (j - lo)
      else (F.testBit j && decide (j < 64)) := by
  rw [Nat.testBit_lor, Nat.testBit_land, not64, Nat.testBit_xor,
    Nat.one_shiftLeft, Nat.testBit_shiftLeft, Nat.testBit_shiftLeft,
    Nat.testBit_two_pow_sub_one, Nat.testBit_two_pow_sub_one]
  by_cases h1 : lo ≤ j ∧ j < hi
  · rw [if_pos h1]
    have hd1 : decide (j ≥ lo) = true := by simp [h1.1]
    have hd2 : decide (j - lo < hi - lo) = true := by
      simp only [decide_eq_true_eq]; omega
    have hd3 : decide (j < 64) = true := by
      simp only [decide_eq_true_eq]; omega
    rw [hd1, hd2, hd3]
    simp
  · rw [if_neg h1]
    by_cases hj64 : j < 64
    · by_cases hjlo : j < lo
      · have hd1 : decide (j ≥ lo) = false := by
          simp only [decide_eq_false_iff_not]; omega
        rw [hd1]
        simp [hj64]
      · have hjhi : hi ≤ j := by omega
        have hd1 : decide (j ≥ lo) = true := by
          simp only [decide_eq_true_eq]; omega
        have hd2 : decide (j - lo < hi - lo) = false := by
          simp only [decide_eq_false_iff_not]; omega
        have hvb : v.testBit (j - lo) = false :=
          Nat.testBit_lt_two_pow
            (lt_of_lt_of_le hv (Nat.pow_le_pow_right (by norm_num) (by omega)))
        rw [hd1, hd2, hvb]
        simp [hj64]
    · have hFb : F.testBit j = false :=
        Nat.testBit_lt_two_pow
          (lt_of_lt_of_le hF (Nat.pow_le_pow_right (by norm_num) (by omega)))
      have hvb : v.testBit (j - lo) = false :=
        Nat.testBit_lt_two_pow
          (lt_of_lt_of_le hv (Nat.pow_le_pow_right (by norm_num) (by omega)))
      have hd3 : decide (j < 64) = false := by
        simp only [decide_eq_false_iff_not]; omega
      rw [hFb, hvb, hd3]
      simp

theorem setWord_lt (F v lo hi : Nat) (hlh : lo ≤ hi) (hhi : hi ≤ 64)
    (hF : F < 2 ^ 64) (hv : v < 2 ^ (hi - lo)) :
    (F &&& not64 (((1 <<< (hi - lo)) - 1) <<< lo)) ||| (v <<< lo) < 2 ^ 64 := by
  apply Nat.lt_pow_two_of_testBit
  intro i hi64
  rw [setWord_testBit F v lo hi hlh hhi hF hv i,
    if_neg (by omega)]
  simp only [Bool.and_eq_false_iff, decide_eq_false_iff_not]
  exact Or.inr (by omega)

theorem setWord_extract (F v lo hi : Nat) (hlh : lo ≤ hi) (hhi : hi ≤ 64)
    (hF : F < 2 ^ 64) (hv : v < 2 ^ (hi - lo)) :
    ((F &&& not64 (((1 <<< (hi - lo)) - 1) <<< lo)) ||| (v <<< lo)) / 2 ^ lo
      % 2 ^ (hi - lo) = v := by
  apply Nat.eq_of_testBit_eq
  intro i
  rw [Nat.testBit_mod_two_pow, ← Nat.shiftRight_eq_div_pow,
    Nat.testBit_shiftRight, setWord_testBit F v lo hi hlh hhi hF hv]
  by_cases hiw : i < hi - lo
  · rw [if_pos ⟨by omega, by omega⟩]
    have hd : decide (i < hi - lo) = true := by
      simp only [decide_eq_true_eq]; omega
    rw [hd]
    simp only [Bool.true_and]
    congr 1
    omega
  · have hd : decide (i < hi - lo) = false := by
      simp only [decide_eq_false_iff_not]; omega
    rw [hd]
    have hvb : v.testBit i = false :=
      Nat.testBit_lt_two_pow
        (lt_of_lt_of_le hv (Nat.pow_le_pow_right (by norm_num) (by omega)))
    simp [hvb]

theorem writeChecked_eq (buf src : List Nat) (s : Nat)
    (h : s + src.length ≤ buf.length) :
    writeChecked buf s src = Outcome.wrote (setBytes buf s src) := if_pos h

/-- C4: `SuperBlockFlags::set_flag` on a flag `(w, lo..hi)` (the catalog
flags all satisfy `lo ≤ hi ≤ 64` and width < 64) and a buffer of at
least `(w+1)*8` valid bytes: a value wider than the range fails with
`InvalidValue` leaving the buffer untouched; otherwise it succeeds, bits
`lo..hi` of word `w` afterwards hold exactly `v`, every other bit of
word `w` is unchanged, and every byte outside word `w` is unchanged —
validation precedes mutation and nothing is partially applied. -/
theorem super_block_set_flag_spec (w lo hi v : Nat) (buf : List Nat)
    (hlh : lo ≤ hi) (hhi : hi ≤ 64) (hwidth : hi - lo < 64)
    (hbuf : (w + 1) * 8 ≤ buf.length) (hbytes : ∀ b ∈ buf, b < 256) :
    (2 ^ (hi - lo) - 1 < v →
      SuperBlockFlags.set_flag ⟨w, lo, hi⟩ v buf =
        Outcome.errored BchErr.einval buf) ∧
    (v ≤ 2 ^ (hi - lo) - 1 →
      ∃ buf2, SuperBlockFlags.set_flag ⟨w, lo, hi⟩ v buf = Outcome.wrote buf2 ∧
        buf2.length = buf.length ∧
        readLE buf2 (w * 8) 8 / 2 ^ lo % 2 ^ (hi - lo) = v ∧
        (∀ i, i < 64 → i < lo ∨ hi ≤ i →
          (readLE buf2 (w * 8) 8).testBit i = (readLE buf (w * 8) 8).testBit i) ∧
        (∀ p, p < w * 8 ∨ (w + 1) * 8 ≤ p → buf2[p]? = buf[p]?)) := by
  constructor
  · intro h
    simp only [SuperBlockFlags.set_flag]
    rw [if_neg (by omega), if_pos (by rw [Nat.one_shiftLeft]; omega)]
  · intro h
    have hv : v < 2 ^ (hi - lo) := by
      have h2 : 0 < 2 ^ (hi - lo) := Nat.two_pow_pos _
      omega
    have hF : readLE buf (w * 8) 8 < 2 ^ 64 := by
      have h3 := readLE_lt buf (w * 8) 8 hbytes
      have h4 : (256 : Nat) ^ 8 = 2 ^ 64 := by norm_num
      omega
    simp only [SuperBlockFlags.set_flag]
    rw [if_neg (by omega), if_neg (by rw [Nat.one_shiftLeft]; omega),
      writeChecked_eq _ _ _ (by simp; omega)]
    refine ⟨_, rfl, by simp, ?_, ?_, ?_⟩
    · rw [readLE_setBytes _ _ _ _ (by omega),
        show (256 : Nat) ^ 8 = 2 ^ 64 by norm_num,
        Nat.mod_eq_of_lt (setWord_lt _ v lo hi hlh hhi hF hv)]
      exact setWord_extract _ v lo hi hlh hhi hF hv
    · intro i h64 hout
      rw [readLE_setBytes _ _ _ _ (by omega),
        show (256 : Nat) ^ 8 = 2 ^ 64 by norm_num,
        Nat.mod_eq_of_lt (setWord_lt _ v lo hi hlh hhi hF hv),
        setWord_testBit _ v lo hi hlh hhi hF hv, if_neg (by omega)]
      simp [h64]
    · intro p hp
      rcases hp with hp | hp
      · exact getElem?_setBytes_low _ _ _ _ hp
      · exact getElem?_setBytes_high _ _ _ _ (by simp; omega)

/-- Witness for `super_block_set_flag_spec`: the USRQUOTA range (word 0,
bits 57..58), value 1, on an 8-byte buffer pre-seeded with 0xAB. -/
theorem super_block_set_flag_spec_witness :
    ((57 : Nat) ≤ 58 ∧ (58 : Nat) ≤ 64 ∧ (58 : Nat) - 57 < 64 ∧
     (0 + 1) * 8 ≤ (List.replicate 8 171 : List Nat).length ∧
     (∀ b ∈ (List.replicate 8 171 : List Nat), b < 256)) ∧
    ((2 ^ (58 - 57) - 1 < 1 →
       SuperBlockFlags.set_flag ⟨0, 57, 58⟩ 1 (List.replicate 8 171) =
         Outcome.errored BchErr.einval (List.replicate 8 171)) ∧
     (1 ≤ 2 ^ (58 - 57) - 1 →
       ∃ buf2,
         SuperBlockFlags.set_flag ⟨0, 57, 58⟩ 1 (List.replicate 8 171) =
           Outcome.wrote buf2 ∧
         buf2.length = (List.replicate 8 171 : List Nat).length ∧
         readLE buf2 (0 * 8) 8 / 2 ^ 57 % 2 ^ (58 - 57) = 1 ∧
         (∀ i, i < 64 → i < 57 ∨ 58 ≤ i →
           (readLE buf2 (0 * 8) 8).testBit i =
             (readLE (List.replicate 8 171) (0 * 8) 8).testBit i) ∧
         (∀ p, p < 0 * 8 ∨ (0 + 1) * 8 ≤ p →
           buf2[p]? = (List.replicate 8 171 : List Nat)[p]?))) :=
  ⟨⟨by norm_num, by norm_num, by norm_num, by decide, by decide⟩,
   super_block_set_flag_spec 0 57 58 1 (List.replicate 8 171) (by norm_num)
     (by norm_num) (by norm_num) (by decide) (by decide)⟩

/-- Iterate `add_field` over (type, payload) pairs; `none` unless every
call succeeds. -/
def addFields : List (Nat × List Nat) → SuperBlockSt → Option SuperBlockSt
  | [], sb => some sb
  | f :: fs, sb =>
    match SuperBlock.add_field f.1 f.2 sb with
    | StOutcome.ok sb2 => addFields fs sb2
    | _ => none

theorem add_field_ok (ty : Nat) (field : List Nat) (sb sb2 : SuperBlockSt)
    (h : SuperBlock.add_field ty field sb = StOutcome.ok sb2) :
    sb2.lastFieldOffset = sb.lastFieldOffset + (field.length + 8) ∧
    sb2.buffer.length = sb.buffer.length ∧
    sb2.lastFieldOffset + 752 ≤ sb.buffer.length := by
  simp only [SuperBlock.add_field] at h
  split at h
  · exact absurd h (by simp)
  · rename_i hlen
    injection h with h2
    subst h2
    refine ⟨rfl, by simp, ?_⟩
    simp only
    omega

theorem addFields_ok (fs : List (Nat × List Nat)) (sb sb2 : SuperBlockSt)
    (h : addFields fs sb = some sb2) :
    sb2.lastFieldOffset =
      sb.lastFieldOffset + (fs.map (fun f => f.2.length + 8)).sum ∧
    sb2.buffer.length = sb.buffer.length ∧
    (fs ≠ [] → sb2.lastFieldOffset + 752 ≤ sb.buffer.length) := by
  induction fs generalizing sb with
  | nil =>
      simp only [addFields, Option.some.injEq] at h
      subst h
      simp
  | cons f fs ih =>
      simp only [addFields] at h
      cases hf : SuperBlock.add_field f.1 f.2 sb with
      | ok sbNext =>
          rw [hf] at h
          obtain ⟨h1, h2, h3⟩ := add_field_ok f.1 f.2 sb sbNext hf
          obtain ⟨g1, g2, g3⟩ := ih sbNext h
          refine ⟨?_, by rw [g2, h2], fun _ => ?_⟩
          · rw [g1, h1]
            simp only [List.map_cons, List.sum_cons]
            ring
          · rcases eq_or_ne fs [] with hfs | hfs
            · subst hfs
              simp only [addFields, Option.some.injEq] at h
              subst h
              omega
            · have g4 := g3 hfs
              omega
      | panicked => rw [hf] at h; exact absurd h (by simp)
      | errored e sbE => rw [hf] at h; exact absurd h (by simp)

theorem addFields_append (a b : List (Nat × List Nat)) (sb sb2 : SuperBlockSt)
    (h : addFields (a ++ b) sb = some sb2) :
    ∃ sbMid, addFields a sb = some sbMid ∧ addFields b sbMid = some sb2 := by
  induction a generalizing sb with
  | nil => exact ⟨sb, rfl, h⟩
  | cons f fs ih =>
      simp only [List.cons_append, addFields] at h ⊢
      cases hf : SuperBlock.add_field f.1 f.2 sb with
      | ok sbNext => rw [hf] at h; exact ih sbNext h
      | panicked => rw [hf] at h; exact absurd h (by simp)
      | errored e sbE => rw [hf] at h; exact absurd h (by simp)

theorem fieldSum_mod8 (fs : List (Nat × List Nat))
    (h8 : ∀ f ∈ fs, f.2.length % 8 = 0) :
    (fs.map (fun f => f.2.length + 8)).sum % 8 = 0 := by
  induction fs with
  | nil => simp
  | cons f fs ih =>
      simp only [List.map_cons, List.sum_cons]
      have hf := h8 f (by simp)
      have hr := ih (fun g hg => h8 g (by simp [hg]))
      omega

theorem fieldSum_div8 (fs : List (Nat × List Nat))
    (h8 : ∀ f ∈ fs, f.2.length % 8 = 0) :
    (fs.map (fun f => f.2.length + 8)).sum / 8 =
      (fs.map (fun f => (f.2.length + 8) / 8)).sum := by
  induction fs with
  | nil => simp
  | cons f fs ih =>
      simp only [List.map_cons, List.sum_cons]
      have hf := h8 f (by simp)
      have hr := fieldSum_mod8 fs (fun g hg => h8 g (by simp [hg]))
      have ihr := ih (fun g hg => h8 g (by simp [hg]))
      omega

/-- C6: after `k ≥ 1` successful `add_field` calls with payload lengths
`L₁..Lₖ` (each a multiple of 8) starting from a fresh builder,
`set_u64s` writes the `u64s` field equal to `Σ (Lᵢ + 8) / 8` (payload
plus 8-byte header, in 8-byte units); a `set_u64s` issued before the
last `add_field` would instead record a strictly smaller value than the
final field-list length. -/
theorem set_u64s_after_add_fields (fs : List (Nat × List Nat))
    (lst : Nat × List Nat) (buf0 : List Nat) (sbFin : SuperBlockSt)
    (h8 : ∀ f ∈ fs ++ [lst], f.2.length % 8 = 0)
    (hlen : buf0.length < 2 ^ 35)
    (hadd : addFields (fs ++ [lst]) ⟨0, buf0⟩ = some sbFin) :
    (∃ buf2, SuperBlock.set_u64s sbFin = Outcome.wrote buf2 ∧
      readLE buf2 124 4 =
        ((fs ++ [lst]).map (fun f => (f.2.length + 8) / 8)).sum) ∧
    (∀ sbMid, addFields fs ⟨0, buf0⟩ = some sbMid →
      ∃ bufM, SuperBlock.set_u64s sbMid = Outcome.wrote bufM ∧
        readLE bufM 124 4 <
          ((fs ++ [lst]).map (fun f => (f.2.length + 8) / 8)).sum) := by
  have h35 : (2 : Nat) ^ 35 = 34359738368 := by norm_num
  have h32 : (256 : Nat) ^ 4 = 4294967296 := by norm_num
  obtain ⟨hoff, hblen, hbound⟩ := addFields_ok (fs ++ [lst]) ⟨0, buf0⟩ sbFin hadd
  have hbound2 := hbound (by simp)
  simp only at hoff hblen hbound2
  have hdiv := fieldSum_div8 (fs ++ [lst]) h8
  constructor
  · unfold SuperBlock.set_u64s
    rw [if_neg (by omega), writeChecked_eq _ _ _ (by simp; omega)]
    refine ⟨_, rfl, ?_⟩
    rw [readLE_setBytes _ _ _ _ (by omega), h32,
      Nat.mod_eq_of_lt (by omega), hoff, ← hdiv]
    omega
  · intro sbMid hmid
    obtain ⟨moff, mlen, -⟩ := addFields_ok fs ⟨0, buf0⟩ sbMid hmid
    simp only at moff mlen
    have hdivfs := fieldSum_div8 fs (fun g hg => h8 g (by simp [hg]))
    have hsplit :
        ((fs ++ [lst]).map (fun f => (f.2.length + 8) / 8)).sum =
          (fs.map (fun f => (f.2.length + 8) / 8)).sum +
            (lst.2.length + 8) / 8 := by
      simp
    have hlst : 1 ≤ (lst.2.length + 8) / 8 := by omega
    have hmidle : sbMid.lastFieldOffset ≤ sbFin.lastFieldOffset := by
      have hsum2 : (fs.map (fun f => f.2.length + 8)).sum ≤
          ((fs ++ [lst]).map (fun f => f.2.length + 8)).sum := by
        simp
      omega
    unfold SuperBlock.set_u64s
    rw [if_neg (by omega), writeChecked_eq _ _ _ (by simp; omega)]
    refine ⟨_, rfl, ?_⟩
    rw [readLE_setBytes _ _ _ _ (by omega), h32,
      Nat.mod_eq_of_lt (by omega), hsplit, moff, ← hdivfs]
    omega

/-- Witness for `set_u64s_after_add_fields`: one Members-type field with
an 8-byte payload appended to a fresh 768-byte superblock buffer. -/
theorem set_u64s_after_add_fields_witness :
    ((∀ f ∈ ([] : List (Nat × List Nat)) ++ [(1, List.replicate 8 0)],
        f.2.length % 8 = 0) ∧
     (List.replicate 768 0 : List Nat).length < 2 ^ 35 ∧
     addFields ([] ++ [(1, List.replicate 8 0)]) ⟨0, List.replicate 768 0⟩ =
       some ((addFields ([] ++ [(1, List.replicate 8 0)])
         ⟨0, List.replicate 768 0⟩).getD ⟨0, []⟩)) ∧
    ((∃ buf2,
       SuperBlock.set_u64s ((addFields ([] ++ [(1, List.replicate 8 0)])
           ⟨0, List.replicate 768 0⟩).getD ⟨0, []⟩) = Outcome.wrote buf2 ∧
       readLE buf2 124 4 =
         ((([] : List (Nat × List Nat)) ++ [(1, List.replicate 8 0)]).map
           (fun f : Nat × List Nat => (f.2.length + 8) / 8)).sum) ∧
     (∀ sbMid, addFields [] ⟨0, List.replicate 768 0⟩ = some sbMid →
       ∃ bufM, SuperBlock.set_u64s sbMid = Outcome.wrote bufM ∧
         readLE bufM 124 4 <
           ((([] : List (Nat × List Nat)) ++ [(1, List.replicate 8 0)]).map
             (fun f : Nat × List Nat => (f.2.length + 8) / 8)).sum)) :=
  ⟨⟨by decide, by decide, by rfl⟩,
   set_u64s_after_add_fields [] (1, List.replicate 8 0) (List.replicate 768 0)
     ((addFields ([] ++ [(1, List.replicate 8 0)])
       ⟨0, List.replicate 768 0⟩).getD ⟨0, []⟩) (by decide) (by decide) (by rfl)⟩

/-- Geometry reported for one device by `get_blocksize` (sectors) and
`get_size` (bytes). -/
structure DevGeom where
  blockSize : Nat
  sizeBytes : Nat
deriving DecidableEq, Repr

/-- A validated `Device` (src/format.rs lines 94-101, minus the
path). -/
structure PlannedDev where
  blockSize : Nat
  size : Nat
  bucketSize : Nat
  nbuckets : Nat
deriving DecidableEq, Repr

/-- Errors raised during the per-device validation phase of `format`
(before any byte is written): I/O failure while opening/probing a
device, the three planner failures, a planner division-by-zero panic,
no device to take the maximum block size from, or a requested block
size below some device's native block size. -/
inductive PlanErr where
  | ioError : PlanErr
  | tooSmall : PlanErr
  | blockTooSmall : PlanErr
  | tooFewBuckets : PlanErr
  | planPanic : PlanErr
  | noMaxBlock : PlanErr
  | fmtBlockTooSmall : PlanErr
deriving DecidableEq, Repr

/-- Errors raised while assembling the metadata buffers (after zeroing
has begun): a codec `BufferTooSmall`, a codec `InvalidValue`, or a
panic. -/
inductive BuildErr where
  | bufTooSmall : BuildErr
  | invalidVal : BuildErr
  | midPanic : BuildErr
deriving DecidableEq, Repr

/-- Classified error of one `format` run. -/
inductive FmtError where
  | plan : PlanErr → FmtError
  | build : BuildErr → FmtError
deriving DecidableEq, Repr

def buildErrOf : BchErr → BuildErr
  | BchErr.exhausted => BuildErr.bufTooSmall
  | BchErr.einval => BuildErr.invalidVal
  | BchErr.strE => BuildErr.invalidVal

/-- Sequence an accessor `Outcome` into the build phase. -/
def obind {α : Type} (o : Outcome) (f : List Nat → Except BuildErr α) :
    Except BuildErr α :=
  match o with
  | Outcome.panicked => Except.error BuildErr.midPanic
  | Outcome.errored e _ => Except.error (buildErrOf e)
  | Outcome.wrote b => f b

/-- `if let Some(ref label) = args.label { sb.set_label(..)? }`. -/
def setLabelOpt (lbl : Option (List Nat)) (buf : List Nat) : Outcome :=
  match lbl with
  | none => Outcome.wrote buf
  | some l => SuperBlock.set_label l buf

/-- Per-device half of the validation loop of `format` (src/format.rs
lines 188-245): open (may fail with `IoError`), probe geometry, then run
the bucket planner on `size >> 9` sectors. -/
def planDevice (flog2 : Nat → Nat) (rb : Nat) (g : Option DevGeom) :
    Except PlanErr PlannedDev :=
  match g with
  | none => Except.error PlanErr.ioError
  | some g =>
    match planBuckets flog2 (g.sizeBytes / 512) g.blockSize rb with
    | PlanResult.tooSmall => Except.error PlanErr.tooSmall
    | PlanResult.blockTooSmall => Except.error PlanErr.blockTooSmall
    | PlanResult.tooFewBuckets => Except.error PlanErr.tooFewBuckets
    | PlanResult.panicked => Except.error PlanErr.planPanic
    | PlanResult.ok b n => Except.ok ⟨g.blockSize, g.sizeBytes / 512, b, n⟩

/-- The whole validation loop, in input order, stopping at the first
failing device. -/
def planPhase (flog2 : Nat → Nat) (rb : Nat) :
    List (Option DevGeom) → Except PlanErr (List PlannedDev)
  | [] => Except.ok []
  | g :: gs =>
    match planDevice flog2 rb g with
    | Except.error e => Except.error e
    | Except.ok d =>
      match planPhase flog2 rb gs with
      | Except.error e => Except.error e
      | Except.ok ds => Except.ok (d :: ds)

/-- The six flag writes of `format` (src/format.rs lines 284-292) on the
fresh 64-byte flags buffer. -/
def buildFlags (metaR dataR btreeNodeSize : Nat) : Except BuildErr (List Nat) :=
  obind (SuperBlockFlags.set_flag SuperBlockFlag.BTREE_NODE_SIZE btreeNodeSize
      (List.replicate 64 0)) fun b1 =>
  obind (SuperBlockFlags.set_flag SuperBlockFlag.GC_RESERVE 8 b1) fun b2 =>
  obind (SuperBlockFlags.set_flag SuperBlockFlag.META_REPLICAS_WANT metaR b2) fun b3 =>
  obind (SuperBlockFlags.set_flag SuperBlockFlag.DATA_REPLICAS_WANT dataR b3) fun b4 =>
  obind (SuperBlockFlags.set_flag SuperBlockFlag.META_REPLICAS_REQ 1 b4) fun b5 =>
  obind (SuperBlockFlags.set_flag SuperBlockFlag.DATA_REPLICAS_REQ 1 b5) fun b6 =>
  Except.ok b6

/-- The layout-sector record of `format` (src/format.rs lines 294-302) on
the fresh 512-byte layout buffer; `sbLog2` stands for
`(x as f64).log2() as u8`. -/
def buildLayout (sbLog2 : Nat → Nat) (superblockSize : Nat) :
    Except BuildErr (List Nat) :=
  obind (SuperBlockLayout.set_magic (List.replicate 512 0)) fun b1 =>
  obind (SuperBlockLayout.set_layout_type 0 b1) fun b2 =>
  obind (SuperBlockLayout.set_nr_superblocks 1 b2) fun b3 =>
  obind (SuperBlockLayout.set_sb_max_size (sbLog2 superblockSize) b3) fun b4 =>
  obind (SuperBlockLayout.set_sb_offset 0 8 b4) fun b5 =>
  Except.ok b5

/-- The member-building loop of `format` (src/format.rs lines 348-362):
device `i` writes through the tail slice `&mut member_buf[56*i..]`
(taking the slice panics if `56*i` exceeds the buffer). -/
def memberLoop (memU : Nat → Nat) : Nat → List PlannedDev → List Nat →
    Except BuildErr (List Nat)
  | _, [], mbuf => Except.ok mbuf
  | i, d :: rest, mbuf =>
    if mbuf.length < 56 * i then Except.error BuildErr.midPanic
    else
      obind (MemberField.set_uuid (56 * i) (memU i) mbuf) fun b1 =>
      obind (MemberField.set_n_buckets (56 * i) d.nbuckets b1) fun b2 =>
      obind (MemberField.set_first_bucket (56 * i) 0 b2) fun b3 =>
      obind (MemberField.set_bucket_size (56 * i) (d.bucketSize % 65536) b3) fun b4 =>
      obind (MemberField.set_flag (56 * i) MemberFlag.REPLACEMENT 0 b4) fun b5 =>
      obind (MemberField.set_flag (56 * i) MemberFlag.DISCARD 0 b5) fun b6 =>
      obind (MemberField.set_flag (56 * i) MemberFlag.DATA_ALLOWED
          DataTypes.DEFAULT b6) fun b7 =>
      obind (MemberField.set_flag (56 * i) MemberFlag.DURABILITY 2 b7) fun b8 =>
      memberLoop memU (i + 1) rest b8

/-- Format parameters reaching `format` (the fields it reads). -/
structure FmtArgs where
  metadataReplicas : Nat
  dataReplicas : Nat
  label : Option (List Nat)
  uuid : Nat
  superblockSize : Nat
  blockSize : Nat
deriving Repr

/-- The shared superblock buffer built once by `format` (src/format.rs
lines 317-365) on a fresh 1024-byte buffer: version 13
(`METADATA_VERSION_CURRENT`), magic, block size in sectors, device
count, filesystem UUID (`fsUuid`, freshly generated) and user UUID,
optional label, time base precision 1, flags, embedded layout, feature
word 0, then the members field (one 56-byte record per device, each
with a fresh UUID `memU i`) appended via `add_field`. -/
def buildSb (fsUuid : Nat) (memU : Nat → Nat) (args : FmtArgs)
    (devs : List PlannedDev) (flagsBuf layoutBuf : List Nat) :
    Except BuildErr SuperBlockSt :=
  obind (SuperBlock.set_version 13 (List.replicate 1024 0)) fun b1 =>
  obind (SuperBlock.set_version_min 13 b1) fun b2 =>
  obind (SuperBlock.set_magic b2) fun b3 =>
  obind (SuperBlock.set_block_size (args.blockSize / 512) b3) fun b4 =>
  obind (SuperBlock.set_nr_devices (devs.length % 256) b4) fun b5 =>
  obind (SuperBlock.set_uuid fsUuid b5) fun b6 =>
  obind (SuperBlock.set_user_uuid args.uuid b6) fun b7 =>
  obind (setLabelOpt args.label b7) fun b8 =>
  obind (SuperBlock.set_time_base_p 1 b8) fun b9 =>
  obind (SuperBlock.set_flags flagsBuf b9) fun b10 =>
  obind (SuperBlock.set_layout layoutBuf b10) fun b11 =>
  obind (SuperBlock.set_feature 0 Features.ALL b11) fun b12 =>
  match memberLoop memU 0 devs (List.replicate (56 * devs.length) 0) with
  | Except.error e => Except.error e
  | Except.ok memberBuf =>
    match SuperBlock.add_field 1 memberBuf ⟨0, b12⟩ with
    | StOutcome.panicked => Except.error BuildErr.midPanic
    | StOutcome.errored e _ => Except.error (buildErrOf e)
    | StOutcome.ok sb2 => Except.ok sb2

/-- The final per-device write loop of `format` (src/format.rs lines
367-374): for each device index, set `dev_idx` and `offset` on the one
shared buffer and record the bytes written at the superblock sector.
Earlier snapshots are kept when a later iteration fails. -/
def sbWriteLoop : Nat → Nat → List Nat → Option BuildErr × List (Nat × List Nat)
  | _, 0, _ => (none, [])
  | i, k + 1, buf =>
    match SuperBlock.set_dev_idx i buf with
    | Outcome.panicked => (some BuildErr.midPanic, [])
    | Outcome.errored e _ => (some (buildErrOf e), [])
    | Outcome.wrote b1 =>
      match SuperBlock.set_offset 8 b1 with
      | Outcome.panicked => (some BuildErr.midPanic, [])
      | Outcome.errored e _ => (some (buildErrOf e), [])
      | Outcome.wrote b2 =>
        match sbWriteLoop (i + 1) k b2 with
        | (e, rest) => (e, (i, b2) :: rest)

/-- Trace of one `format` run: the classified error (if any) and, per
device index, the bytes written while zeroing (sectors 0..8), at the
layout sector, and at the superblock sector. -/
structure FmtRun where
  error : Option FmtError
  zeroWrites : List (Nat × List Nat)
  layoutWrites : List (Nat × List Nat)
  sbWrites : List (Nat × List Nat)
deriving Repr

/-- Tail of `format` after the layout record is built: build the shared
superblock, finalize `u64s`, and run the per-device superblock write
loop.  `zeroes` and `layouts` are the writes already issued. -/
def formatStage2 (fsUuid : Nat) (memU : Nat → Nat) (args : FmtArgs)
    (devs : List PlannedDev) (flagsBuf layoutBuf : List Nat)
    (zeroes layouts : List (Nat × List Nat)) : FmtRun :=
  match buildSb fsUuid memU args devs flagsBuf layoutBuf with
  | Except.error e => ⟨some (FmtError.build e), zeroes, layouts, []⟩
  | Except.ok sbSt =>
    match SuperBlock.set_u64s sbSt with
    | Outcome.panicked =>
        ⟨some (FmtError.build BuildErr.midPanic), zeroes, layouts, []⟩
    | Outcome.errored e _ =>
        ⟨some (FmtError.build (buildErrOf e)), zeroes, layouts, []⟩
    | Outcome.wrote sbBuf =>
      match sbWriteLoop 0 devs.length sbBuf with
      | (some e, partialWrites) =>
          ⟨some (FmtError.build e), zeroes, layouts, partialWrites⟩
      | (none, writes) => ⟨none, zeroes, layouts, writes⟩

/-- The zeroing writes: 8 sectors (4096 bytes) of zeros at offset 0 on
each of the `n` devices. -/
def zeroTrace (n : Nat) : List (Nat × List Nat) :=
  (List.range n).map (fun i => (i, List.replicate 4096 0))

/-- The layout writes: the same layout record on each of the `n`
devices. -/
def layoutTrace (n : Nat) (layoutBuf : List Nat) : List (Nat × List Nat) :=
  (List.range n).map (fun i => (i, layoutBuf))

/-- Middle of `format` once validation has passed: the first 8 sectors of
every device are zeroed, then the flags and layout buffers are built
(the layout is then written to every device) before `formatStage2`. -/
def formatStage1 (sbLog2 : Nat → Nat) (fsUuid : Nat) (memU : Nat → Nat)
    (args : FmtArgs) (devs : List PlannedDev) : FmtRun :=
  match buildFlags args.metadataReplicas args.dataReplicas
      (min (((devs.map (fun d => d.bucketSize)).min?).getD 512) 512) with
  | Except.error e => ⟨some (FmtError.build e), zeroTrace devs.length, [], []⟩
  | Except.ok flagsBuf =>
    match buildLayout sbLog2 args.superblockSize with
    | Except.error e => ⟨some (FmtError.build e), zeroTrace devs.length, [], []⟩
    | Except.ok layoutBuf =>
        formatStage2 fsUuid memU args devs flagsBuf layoutBuf
          (zeroTrace devs.length) (layoutTrace devs.length layoutBuf)

/-- The whole of `format` (src/format.rs lines 185-377): validate every
device (planner), compute the maximum native block size and check the
requested block size against it — all before any byte is written — and
only then zero, build and write the metadata records.  Randomness
(`Uuid::new_v4`) is injected through `fsUuid` and `memU`; the two float
log2 computations through `flog2` and `sbLog2`. -/
def formatModel (flog2 sbLog2 : Nat → Nat) (fsUuid : Nat) (memU : Nat → Nat)
    (args : FmtArgs) (geoms : List (Option DevGeom)) : FmtRun :=
  match planPhase flog2 args.blockSize geoms with
  | Except.error e => ⟨some (FmtError.plan e), [], [], []⟩
  | Except.ok devs =>
    match (devs.map (fun d => d.blockSize)).max? with
    | none => ⟨some (FmtError.plan PlanErr.noMaxBlock), [], [], []⟩
    | some mx =>
      if args.blockSize / 512 < mx then
        ⟨some (FmtError.plan PlanErr.fmtBlockTooSmall), [], [], []⟩
      else formatStage1 sbLog2 fsUuid memU args devs

theorem obind_ok {α : Type} (o : Outcome) (f : List Nat → Except BuildErr α)
    (a : α) (h : obind o f = Except.ok a) :
    ∃ b, o = Outcome.wrote b ∧ f b = Except.ok a := by
  cases o with
  | panicked => exact absurd h (by simp [obind])
  | errored e bb => exact absurd h (by simp [obind])
  | wrote b => exact ⟨b, rfl, h⟩

theorem guarded_write_length {c : Prop} [Decidable c] {e : BchErr}
    {buf src b : List Nat} {s : Nat}
    (h : (if c then Outcome.errored e buf else writeChecked buf s src) =
      Outcome.wrote b) : b.length = buf.length := by
  split at h
  · exact absurd h (by simp)
  · unfold writeChecked at h
    split at h
    · injection h with h2
      subst h2
      simp
    · exact absurd h (by simp)

theorem guarded2_write_length {c1 c2 : Prop} [Decidable c1] [Decidable c2]
    {e1 e2 : BchErr} {buf src b : List Nat} {s : Nat}
    (h : (if c1 then Outcome.errored e1 buf
          else if c2 then Outcome.errored e2 buf
          else writeChecked buf s src) = Outcome.wrote b) :
    b.length = buf.length := by
  split at h
  · exact absurd h (by simp)
  · exact guarded_write_length h

theorem setLabelOpt_length {lbl : Option (List Nat)} {buf b : List Nat}
    (h : setLabelOpt lbl buf = Outcome.wrote b) : b.length = buf.length := by
  cases lbl with
  | none =>
      simp only [setLabelOpt, Outcome.wrote.injEq] at h
      rw [h]
  | some l => exact guarded2_write_length h

theorem memberLoop_length (memU : Nat → Nat) (ds : List PlannedDev) :
    ∀ (i : Nat) (mbuf out : List Nat),
      memberLoop memU i ds mbuf = Except.ok out → out.length = mbuf.length := by
  induction ds with
  | nil =>
      intro i mbuf out h
      simp only [memberLoop, Except.ok.injEq] at h
      rw [h]
  | cons d ds ih =>
      intro i mbuf out h
      simp only [memberLoop] at h
      split at h
      · exact absurd h (by simp)
      · obtain ⟨b1, hb1, h⟩ := obind_ok _ _ _ h
        obtain ⟨b2, hb2, h⟩ := obind_ok _ _ _ h
        obtain ⟨b3, hb3, h⟩ := obind_ok _ _ _ h
        obtain ⟨b4, hb4, h⟩ := obind_ok _ _ _ h
        obtain ⟨b5, hb5, h⟩ := obind_ok _ _ _ h
        obtain ⟨b6, hb6, h⟩ := obind_ok _ _ _ h
        obtain ⟨b7, hb7, h⟩ := obind_ok _ _ _ h
        obtain ⟨b8, hb8, h⟩ := obind_ok _ _ _ h
        have l1 := guarded_write_length hb1
        have l2 := guarded_write_length hb2
        have l3 := guarded_write_length hb3
        have l4 := guarded_write_length hb4
        have l5 := guarded2_write_length hb5
        have l6 := guarded2_write_length hb6
        have l7 := guarded2_write_length hb7
        have l8 := guarded2_write_length hb8
        have lrec := ih (i + 1) b8 out h
        omega

theorem buildSb_ok_length (fsUuid : Nat) (memU : Nat → Nat) (args : FmtArgs)
    (devs : List PlannedDev) (flagsBuf layoutBuf : List Nat)
    (sbSt : SuperBlockSt)
    (h : buildSb fsUuid memU args devs flagsBuf layoutBuf = Except.ok sbSt) :
    sbSt.buffer.length = 1024 := by
  unfold buildSb at h
  obtain ⟨b1, hb1, h⟩ := obind_ok _ _ _ h
  obtain ⟨b2, hb2, h⟩ := obind_ok _ _ _ h
  obtain ⟨b3, hb3, h⟩ := obind_ok _ _ _ h
  obtain ⟨b4, hb4, h⟩ := obind_ok _ _ _ h
  obtain ⟨b5, hb5, h⟩ := obind_ok _ _ _ h
  obtain ⟨b6, hb6, h⟩ := obind_ok _ _ _ h
  obtain ⟨b7, hb7, h⟩ := obind_ok _ _ _ h
  obtain ⟨b8, hb8, h⟩ := obind_ok _ _ _ h
  obtain ⟨b9, hb9, h⟩ := obind_ok _ _ _ h
  obtain ⟨b10, hb10, h⟩ := obind_ok _ _ _ h
  obtain ⟨b11, hb11, h⟩ := obind_ok _ _ _ h
  obtain ⟨b12, hb12, h⟩ := obind_ok _ _ _ h
  have l1 := guarded_write_length hb1
  have l2 := guarded_write_length hb2
  have l3 := guarded_write_length hb3
  have l4 := guarded_write_length hb4
  have l5 := guarded_write_length hb5
  have l6 := guarded_write_length hb6
  have l7 := guarded_write_length hb7
  have l8 := setLabelOpt_length hb8
  have l9 := guarded_write_length hb9
  have l10 := guarded_write_length hb10
  have l11 := guarded_write_length hb11
  have l12 := guarded_write_length hb12
  simp only [List.length_replicate] at l1
  cases hml : memberLoop memU 0 devs (List.replicate (56 * devs.length) 0) with
  | error e => simp only [hml] at h; exact Except.noConfusion h
  | ok memberBuf =>
      simp only [hml] at h
      cases haf : SuperBlock.add_field 1 memberBuf ⟨0, b12⟩ with
      | panicked => simp only [haf] at h; exact Except.noConfusion h
      | errored e sbE => simp only [haf] at h; exact Except.noConfusion h
      | ok sb2 =>
          simp only [haf, Except.ok.injEq] at h
          subst h
          obtain ⟨-, hlen2, -⟩ := add_field_ok 1 memberBuf ⟨0, b12⟩ sb2 haf
          simp only at hlen2
          omega

/-- The superblock bytes written for device index `i`: the shared buffer
with `dev_idx` = `i` (one byte at 122) and `offset` = 8 (eight bytes at
104). -/
def canonSb (buf : List Nat) (i : Nat) : List Nat :=
  setBytes (setBytes buf 122 (leBytes 1 i)) 104 (leBytes 8 8)

theorem canonSb_getElem (buf : List Nat) (h : buf.length = 1024) (i p : Nat) :
    (canonSb buf i)[p]? =
      if 104 ≤ p ∧ p < 112 then (leBytes 8 8)[p - 104]?
      else if p = 122 then some (i % 256)
      else buf[p]? := by
  unfold canonSb
  by_cases hp1 : 104 ≤ p ∧ p < 112
  · rw [if_pos hp1,
      getElem?_setBytes_mid _ _ _ _ (by omega) (by simp; omega) (by simp; omega)]
  · rw [if_neg hp1]
    have houter : (setBytes (setBytes buf 122 (leBytes 1 i)) 104
        (leBytes 8 8))[p]? = (setBytes buf 122 (leBytes 1 i))[p]? := by
      rcases Nat.lt_or_ge p 104 with hlt | hge
      · exact getElem?_setBytes_low _ _ _ _ hlt
      · exact getElem?_setBytes_high _ _ _ _ (by simp; omega)
    rw [houter]
    by_cases hp2 : p = 122
    · subst hp2
      rw [if_pos rfl,
        getElem?_setBytes_mid _ _ _ _ (by omega) (by simp) (by omega)]
      simp [leBytes]
    · rw [if_neg hp2]
      rcases Nat.lt_or_ge p 122 with hlt | hge
      · exact getElem?_setBytes_low _ _ _ _ hlt
      · exact getElem?_setBytes_high _ _ _ _ (by simp; omega)

@[simp] theorem canonSb_length (buf : List Nat) (i : Nat) :
    (canonSb buf i).length = buf.length := by
  simp [canonSb]

theorem canonSb_canonSb (buf : List Nat) (h : buf.length = 1024) (i j : Nat) :
    canonSb (canonSb buf i) j = canonSb buf j := by
  apply List.ext_getElem?
  intro p
  rw [canonSb_getElem _ (by simp [h]) j p, canonSb_getElem _ h j p]
  by_cases h1 : 104 ≤ p ∧ p < 112
  · rw [if_pos h1, if_pos h1]
  · rw [if_neg h1, if_neg h1]
    by_cases h2 : p = 122
    · rw [if_pos h2, if_pos h2]
    · rw [if_neg h2, if_neg h2, canonSb_getElem _ h i p, if_neg h1, if_neg h2]

theorem canonSb_agree (buf : List Nat) (h : buf.length = 1024) (i j p : Nat)
    (hp : p ≠ 122) : (canonSb buf i)[p]? = (canonSb buf j)[p]? := by
  rw [canonSb_getElem buf h i p, canonSb_getElem buf h j p]
  by_cases h1 : 104 ≤ p ∧ p < 112
  · rw [if_pos h1, if_pos h1]
  · rw [if_neg h1, if_neg h1, if_neg hp, if_neg hp]

theorem sbWriteLoop_ok (k : Nat) : ∀ (i : Nat) (buf : List Nat),
    buf.length = 1024 →
    (sbWriteLoop i k buf).1 = none ∧
    ∀ w ∈ (sbWriteLoop i k buf).2, w.2 = canonSb buf w.1 := by
  induction k with
  | zero =>
      intro i buf h
      constructor
      · rfl
      · intro w hw
        simp [sbWriteLoop] at hw
  | succ k ih =>
      intro i buf h
      have h1 : SuperBlock.set_dev_idx i buf =
          Outcome.wrote (setBytes buf 122 (leBytes 1 i)) := by
        unfold SuperBlock.set_dev_idx
        rw [if_neg (by omega), writeChecked_eq _ _ _ (by simp [h])]
      have h2 : SuperBlock.set_offset 8 (setBytes buf 122 (leBytes 1 i)) =
          Outcome.wrote (canonSb buf i) := by
        unfold SuperBlock.set_offset canonSb
        rw [if_neg (by simp [h]), writeChecked_eq _ _ _ (by simp [h])]
      obtain ⟨grec1, grec2⟩ := ih (i + 1) (canonSb buf i) (by simp [h])
      constructor
      · show (sbWriteLoop i (k + 1) buf).1 = none
        simp only [sbWriteLoop, h1, h2]
        cases hr : sbWriteLoop (i + 1) k (canonSb buf i) with
        | mk e rest => rw [hr] at grec1; simpa using grec1
      · intro w hw
        simp only [sbWriteLoop, h1, h2] at hw
        cases hr : sbWriteLoop (i + 1) k (canonSb buf i) with
        | mk e rest =>
            rw [hr] at hw grec2
            simp only [List.mem_cons] at hw
            rcases hw with hw | hw
            · subst hw
              simp [canonSb]
            · have := grec2 w hw
              rw [this, canonSb_canonSb buf h]


theorem formatModel_eq_of_plan_err (flog2 sbLog2 : Nat → Nat) (fsUuid : Nat)
    (memU : Nat → Nat) (args : FmtArgs) (geoms : List (Option DevGeom))
    (e : PlanErr) (hp : planPhase flog2 args.blockSize geoms = Except.error e) :
    formatModel flog2 sbLog2 fsUuid memU args geoms =
      ⟨some (FmtError.plan e), [], [], []⟩ := by
  unfold formatModel
  rw [hp]

theorem formatModel_eq_of_planned (flog2 sbLog2 : Nat → Nat) (fsUuid : Nat)
    (memU : Nat → Nat) (args : FmtArgs) (geoms : List (Option DevGeom))
    (devs : List PlannedDev)
    (hp : planPhase flog2 args.blockSize geoms = Except.ok devs) :
    formatModel flog2 sbLog2 fsUuid memU args geoms =
      match (devs.map (fun d => d.blockSize)).max? with
      | none => ⟨some (FmtError.plan PlanErr.noMaxBlock), [], [], []⟩
      | some mx =>
        if args.blockSize / 512 < mx then
          ⟨some (FmtError.plan PlanErr.fmtBlockTooSmall), [], [], []⟩
        else formatStage1 sbLog2 fsUuid memU args devs := by
  unfold formatModel
  rw [hp]

theorem formatModel_eq_of_maxed (flog2 sbLog2 : Nat → Nat) (fsUuid : Nat)
    (memU : Nat → Nat) (args : FmtArgs) (geoms : List (Option DevGeom))
    (devs : List PlannedDev) (mx : Nat)
    (hp : planPhase flog2 args.blockSize geoms = Except.ok devs)
    (hmx : (devs.map (fun d => d.blockSize)).max? = some mx) :
    formatModel flog2 sbLog2 fsUuid memU args geoms =
      if args.blockSize / 512 < mx then
        ⟨some (FmtError.plan PlanErr.fmtBlockTooSmall), [], [], []⟩
      else formatStage1 sbLog2 fsUuid memU args devs := by
  rw [formatModel_eq_of_planned flog2 sbLog2 fsUuid memU args geoms devs hp,
    hmx]

theorem formatStage1_eq_of_flags (sbLog2 : Nat → Nat) (fsUuid : Nat)
    (memU : Nat → Nat) (args : FmtArgs) (devs : List PlannedDev)
    (flagsBuf : List Nat)
    (hfl : buildFlags args.metadataReplicas args.dataReplicas
      (min (((devs.map (fun d => d.bucketSize)).min?).getD 512) 512) =
        Except.ok flagsBuf) :
    formatStage1 sbLog2 fsUuid memU args devs =
      match buildLayout sbLog2 args.superblockSize with
      | Except.error e =>
          ⟨some (FmtError.build e), zeroTrace devs.length, [], []⟩
      | Except.ok layoutBuf =>
          formatStage2 fsUuid memU args devs flagsBuf layoutBuf
            (zeroTrace devs.length) (layoutTrace devs.length layoutBuf) := by
  unfold formatStage1
  rw [hfl]

theorem formatStage1_eq_of_flags_err (sbLog2 : Nat → Nat) (fsUuid : Nat)
    (memU : Nat → Nat) (args : FmtArgs) (devs : List PlannedDev)
    (e : BuildErr)
    (hfl : buildFlags args.metadataReplicas args.dataReplicas
      (min (((devs.map (fun d => d.bucketSize)).min?).getD 512) 512) =
        Except.error e) :
    formatStage1 sbLog2 fsUuid memU args devs =
      ⟨some (FmtError.build e), zeroTrace devs.length, [], []⟩ := by
  unfold formatStage1
  rw [hfl]

theorem formatStage2_eq_of_sb (fsUuid : Nat) (memU : Nat → Nat)
    (args : FmtArgs) (devs : List PlannedDev) (flagsBuf layoutBuf : List Nat)
    (zeroes layouts : List (Nat × List Nat)) (sbSt : SuperBlockSt)
    (hsb : buildSb fsUuid memU args devs flagsBuf layoutBuf = Except.ok sbSt) :
    formatStage2 fsUuid memU args devs flagsBuf layoutBuf zeroes layouts =
      match SuperBlock.set_u64s sbSt with
      | Outcome.panicked =>
          ⟨some (FmtError.build BuildErr.midPanic), zeroes, layouts, []⟩
      | Outcome.errored e _ =>
          ⟨some (FmtError.build (buildErrOf e)), zeroes, layouts, []⟩
      | Outcome.wrote sbBuf =>
        match sbWriteLoop 0 devs.length sbBuf with
        | (some e, partialWrites) =>
            ⟨some (FmtError.build e), zeroes, layouts, partialWrites⟩
        | (none, writes) => ⟨none, zeroes, layouts, writes⟩ := by
  unfold formatStage2
  rw [hsb]

theorem formatStage2_eq_of_sb_err (fsUuid : Nat) (memU : Nat → Nat)
    (args : FmtArgs) (devs : List PlannedDev) (flagsBuf layoutBuf : List Nat)
    (zeroes layouts : List (Nat × List Nat)) (e : BuildErr)
    (hsb : buildSb fsUuid memU args devs flagsBuf layoutBuf = Except.error e) :
    formatStage2 fsUuid memU args devs flagsBuf layoutBuf zeroes layouts =
      ⟨some (FmtError.build e), zeroes, layouts, []⟩ := by
  unfold formatStage2
  rw [hsb]

theorem formatStage1_eq_of_layout_err (sbLog2 : Nat → Nat) (fsUuid : Nat)
    (memU : Nat → Nat) (args : FmtArgs) (devs : List PlannedDev)
    (flagsBuf : List Nat) (e : BuildErr)
    (hfl : buildFlags args.metadataReplicas args.dataReplicas
      (min (((devs.map (fun d => d.bucketSize)).min?).getD 512) 512) =
        Except.ok flagsBuf)
    (hlay : buildLayout sbLog2 args.superblockSize = Except.error e) :
    formatStage1 sbLog2 fsUuid memU args devs =
      ⟨some (FmtError.build e), zeroTrace devs.length, [], []⟩ := by
  rw [formatStage1_eq_of_flags sbLog2 fsUuid memU args devs flagsBuf hfl, hlay]

theorem formatStage1_eq_of_built (sbLog2 : Nat → Nat) (fsUuid : Nat)
    (memU : Nat → Nat) (args : FmtArgs) (devs : List PlannedDev)
    (flagsBuf layoutBuf : List Nat)
    (hfl : buildFlags args.metadataReplicas args.dataReplicas
      (min (((devs.map (fun d => d.bucketSize)).min?).getD 512) 512) =
        Except.ok flagsBuf)
    (hlay : buildLayout sbLog2 args.superblockSize = Except.ok layoutBuf) :
    formatStage1 sbLog2 fsUuid memU args devs =
      formatStage2 fsUuid memU args devs flagsBuf layoutBuf
        (zeroTrace devs.length) (layoutTrace devs.length layoutBuf) := by
  rw [formatStage1_eq_of_flags sbLog2 fsUuid memU args devs flagsBuf hfl, hlay]

theorem formatStage2_eq_of_wrote (fsUuid : Nat) (memU : Nat → Nat)
    (args : FmtArgs) (devs : List PlannedDev) (flagsBuf layoutBuf : List Nat)
    (zeroes layouts : List (Nat × List Nat)) (sbSt : SuperBlockSt)
    (sbBuf : List Nat)
    (hsb : buildSb fsUuid memU args devs flagsBuf layoutBuf = Except.ok sbSt)
    (hu : SuperBlock.set_u64s sbSt = Outcome.wrote sbBuf) :
    formatStage2 fsUuid memU args devs flagsBuf layoutBuf zeroes layouts =
      match sbWriteLoop 0 devs.length sbBuf with
      | (some e, partialWrites) =>
          ⟨some (FmtError.build e), zeroes, layouts, partialWrites⟩
      | (none, writes) => ⟨none, zeroes, layouts, writes⟩ := by
  rw [formatStage2_eq_of_sb fsUuid memU args devs flagsBuf layoutBuf zeroes
    layouts sbSt hsb, hu]

theorem not_plan_of_build (be : BuildErr) (pe : PlanErr)
    (zw lw sw : List (Nat × List Nat))
    (h : (FmtRun.mk (some (FmtError.build be)) zw lw sw).error =
      some (FmtError.plan pe)) : False :=
  FmtError.noConfusion (Option.some.inj h)

theorem not_plan_of_none (pe : PlanErr) (zw lw sw : List (Nat × List Nat))
    (h : (FmtRun.mk none zw lw sw).error = some (FmtError.plan pe)) : False :=
  Option.noConfusion h

theorem formatStage2_error_not_plan (fsUuid : Nat) (memU : Nat → Nat)
    (args : FmtArgs) (devs : List PlannedDev) (flagsBuf layoutBuf : List Nat)
    (zeroes layouts : List (Nat × List Nat)) (e : PlanErr)
    (h : (formatStage2 fsUuid memU args devs flagsBuf layoutBuf zeroes
      layouts).error = some (FmtError.plan e)) : False := by
  cases hsb : buildSb fsUuid memU args devs flagsBuf layoutBuf with
  | error e1 =>
      rw [formatStage2_eq_of_sb_err fsUuid memU args devs flagsBuf layoutBuf
        zeroes layouts e1 hsb] at h
      exact not_plan_of_build _ _ _ _ _ h
  | ok sbSt =>
      have h1 := formatStage2_eq_of_sb fsUuid memU args devs flagsBuf layoutBuf
        zeroes layouts sbSt hsb
      cases hu : SuperBlock.set_u64s sbSt with
      | panicked =>
          rw [hu] at h1
          rw [h1] at h
          exact not_plan_of_build _ _ _ _ _ h
      | errored e2 b2 =>
          rw [hu] at h1
          rw [h1] at h
          exact not_plan_of_build _ _ _ _ _ h
      | wrote sbBuf =>
          have h2 := formatStage2_eq_of_wrote fsUuid memU args devs flagsBuf
            layoutBuf zeroes layouts sbSt sbBuf hsb hu
          cases hloop : sbWriteLoop 0 devs.length sbBuf with
          | mk eo writes =>
              rw [hloop] at h2
              cases eo with
              | none =>
                  rw [h2] at h
                  exact not_plan_of_none _ _ _ _ h
              | some e3 =>
                  rw [h2] at h
                  exact not_plan_of_build _ _ _ _ _ h

theorem formatStage1_error_not_plan (sbLog2 : Nat → Nat) (fsUuid : Nat)
    (memU : Nat → Nat) (args : FmtArgs) (devs : List PlannedDev) (e : PlanErr)
    (h : (formatStage1 sbLog2 fsUuid memU args devs).error =
      some (FmtError.plan e)) : False := by
  cases hfl : buildFlags args.metadataReplicas args.dataReplicas
      (min (((devs.map (fun d => d.bucketSize)).min?).getD 512) 512) with
  | error e1 =>
      rw [formatStage1_eq_of_flags_err sbLog2 fsUuid memU args devs e1 hfl] at h
      exact not_plan_of_build _ _ _ _ _ h
  | ok flagsBuf =>
      have h1 := formatStage1_eq_of_flags sbLog2 fsUuid memU args devs
        flagsBuf hfl
      cases hlay : buildLayout sbLog2 args.superblockSize with
      | error e2 =>
          rw [hlay] at h1
          rw [h1] at h
          exact not_plan_of_build _ _ _ _ _ h
      | ok layoutBuf =>
          rw [hlay] at h1
          rw [h1] at h
          exact formatStage2_error_not_plan _ _ _ _ _ _ _ _ _ h

theorem formatModel_plan_shape (flog2 sbLog2 : Nat → Nat) (fsUuid : Nat)
    (memU : Nat → Nat) (args : FmtArgs) (geoms : List (Option DevGeom))
    (e : PlanErr)
    (he : (formatModel flog2 sbLog2 fsUuid memU args geoms).error =
      some (FmtError.plan e)) :
    formatModel flog2 sbLog2 fsUuid memU args geoms =
      ⟨some (FmtError.plan e), [], [], []⟩ := by
  cases hp : planPhase flog2 args.blockSize geoms with
  | error e1 =>
      have h1 := formatModel_eq_of_plan_err flog2 sbLog2 fsUuid memU args
        geoms e1 hp
      rw [h1] at he ⊢
      have he2 : FmtError.plan e1 = FmtError.plan e := Option.some.inj he
      injection he2 with he3
      rw [he3]
  | ok devs =>
      have h1 := formatModel_eq_of_planned flog2 sbLog2 fsUuid memU args
        geoms devs hp
      cases hmx : (devs.map (fun d => d.blockSize)).max? with
      | none =>
          rw [hmx] at h1
          rw [h1] at he ⊢
          have he2 : FmtError.plan PlanErr.noMaxBlock = FmtError.plan e :=
            Option.some.inj he
          injection he2 with he3
          rw [he3]
      | some mx =>
          have h2 := formatModel_eq_of_maxed flog2 sbLog2 fsUuid memU args
            geoms devs mx hp hmx
          by_cases hlt : args.blockSize / 512 < mx
          · rw [if_pos hlt] at h2
            rw [h2] at he ⊢
            have he2 : FmtError.plan PlanErr.fmtBlockTooSmall =
                FmtError.plan e := Option.some.inj he
            injection he2 with he3
            rw [he3]
          · rw [if_neg hlt] at h2
            rw [h2] at he
            exact absurd he (fun hc =>
              formatStage1_error_not_plan sbLog2 fsUuid memU args devs e hc)

/-- C7: if `format` fails during per-device validation — device open
failure, the planner errors (device too small, block size too small for
bucket size, too few buckets), the missing-maximum case, or the
requested-block-size vs max-native-block-size check — the error is
returned before any byte is written to any device: the zeroing, layout
and superblock write traces are all empty. -/
theorem validation_errors_before_writes (flog2 sbLog2 : Nat → Nat)
    (fsUuid : Nat) (memU : Nat → Nat) (args : FmtArgs)
    (geoms : List (Option DevGeom)) (e : PlanErr)
    (he : (formatModel flog2 sbLog2 fsUuid memU args geoms).error =
      some (FmtError.plan e)) :
    (formatModel flog2 sbLog2 fsUuid memU args geoms).zeroWrites = [] ∧
    (formatModel flog2 sbLog2 fsUuid memU args geoms).layoutWrites = [] ∧
    (formatModel flog2 sbLog2 fsUuid memU args geoms).sbWrites = [] := by
  rw [formatModel_plan_shape flog2 sbLog2 fsUuid memU args geoms e he]
  exact ⟨rfl, rfl, rfl⟩

/-- Witness for `validation_errors_before_writes`: a single 512-sector
device (too small for the minimum 64 buckets of 512 bytes). -/
theorem validation_errors_before_writes_witness :
    (formatModel (fun _ => 0) (fun _ => 11) 0 (fun i => i)
        ⟨1, 1, none, 0, 2048, 512⟩ [some ⟨1, 512 * 512⟩]).error =
      some (FmtError.plan PlanErr.tooSmall) ∧
    ((formatModel (fun _ => 0) (fun _ => 11) 0 (fun i => i)
        ⟨1, 1, none, 0, 2048, 512⟩ [some ⟨1, 512 * 512⟩]).zeroWrites = [] ∧
     (formatModel (fun _ => 0) (fun _ => 11) 0 (fun i => i)
        ⟨1, 1, none, 0, 2048, 512⟩ [some ⟨1, 512 * 512⟩]).layoutWrites = [] ∧
     (formatModel (fun _ => 0) (fun _ => 11) 0 (fun i => i)
        ⟨1, 1, none, 0, 2048, 512⟩ [some ⟨1, 512 * 512⟩]).sbWrites = []) := by
  have he : (formatModel (fun _ => 0) (fun _ => 11) 0 (fun i => i)
      ⟨1, 1, none, 0, 2048, 512⟩ [some ⟨1, 512 * 512⟩]).error =
        some (FmtError.plan PlanErr.tooSmall) := by rfl
  exact ⟨he, validation_errors_before_writes (fun _ => 0) (fun _ => 11) 0
    (fun i => i) ⟨1, 1, none, 0, 2048, 512⟩ [some ⟨1, 512 * 512⟩]
    PlanErr.tooSmall he⟩

theorem formatModel_ok_shape (flog2 sbLog2 : Nat → Nat) (fsUuid : Nat)
    (memU : Nat → Nat) (args : FmtArgs) (geoms : List (Option DevGeom))
    (hok : (formatModel flog2 sbLog2 fsUuid memU args geoms).error = none) :
    ∃ (devs : List PlannedDev) (layoutBuf sbBuf : List Nat),
      sbBuf.length = 1024 ∧
      (sbWriteLoop 0 devs.length sbBuf).1 = none ∧
      formatModel flog2 sbLog2 fsUuid memU args geoms =
        ⟨none, zeroTrace devs.length, layoutTrace devs.length layoutBuf,
         (sbWriteLoop 0 devs.length sbBuf).2⟩ := by
  cases hp : planPhase flog2 args.blockSize geoms with
  | error e1 =>
      rw [formatModel_eq_of_plan_err flog2 sbLog2 fsUuid memU args geoms
        e1 hp] at hok
      exact absurd hok (by simp)
  | ok devs =>
      cases hmx : (devs.map (fun d => d.blockSize)).max? with
      | none =>
          have h1 := formatModel_eq_of_planned flog2 sbLog2 fsUuid memU args
            geoms devs hp
          rw [hmx] at h1
          rw [h1] at hok
          exact absurd hok (by simp)
      | some mx =>
          have h2 := formatModel_eq_of_maxed flog2 sbLog2 fsUuid memU args
            geoms devs mx hp hmx
          by_cases hlt : args.blockSize / 512 < mx
          · rw [if_pos hlt] at h2
            rw [h2] at hok
            exact absurd hok (by simp)
          · rw [if_neg hlt] at h2
            cases hfl : buildFlags args.metadataReplicas args.dataReplicas
                (min (((devs.map (fun d => d.bucketSize)).min?).getD 512)
                  512) with
            | error e1 =>
                rw [h2, formatStage1_eq_of_flags_err sbLog2 fsUuid memU args
                  devs e1 hfl] at hok
                exact absurd hok (by simp)
            | ok flagsBuf =>
                cases hlay : buildLayout sbLog2 args.superblockSize with
                | error e2 =>
                    rw [h2, formatStage1_eq_of_layout_err sbLog2 fsUuid memU
                      args devs flagsBuf e2 hfl hlay] at hok
                    exact absurd hok (by simp)
                | ok layoutBuf =>
                    have h3 := formatStage1_eq_of_built sbLog2 fsUuid memU
                      args devs flagsBuf layoutBuf hfl hlay
                    cases hsb : buildSb fsUuid memU args devs flagsBuf
                        layoutBuf with
                    | error e3 =>
                        rw [h2, h3, formatStage2_eq_of_sb_err fsUuid memU args
                          devs flagsBuf layoutBuf _ _ e3 hsb] at hok
                        exact absurd hok (by simp)
                    | ok sbSt =>
                        have h4 := formatStage2_eq_of_sb fsUuid memU args devs
                          flagsBuf layoutBuf (zeroTrace devs.length)
                          (layoutTrace devs.length layoutBuf) sbSt hsb
                        cases hu : SuperBlock.set_u64s sbSt with
                        | panicked =>
                            rw [hu] at h4
                            rw [h2, h3, h4] at hok
                            exact absurd hok (by simp)
                        | errored e4 b4 =>
                            rw [hu] at h4
                            rw [h2, h3, h4] at hok
                            exact absurd hok (by simp)
                        | wrote sbBuf =>
                            have h5 := formatStage2_eq_of_wrote fsUuid memU
                              args devs flagsBuf layoutBuf
                              (zeroTrace devs.length)
                              (layoutTrace devs.length layoutBuf) sbSt sbBuf
                              hsb hu
                            have hlen : sbBuf.length = 1024 := by
                              have g1 := buildSb_ok_length fsUuid memU args
                                devs flagsBuf layoutBuf sbSt hsb
                              have g2 : sbBuf.length = sbSt.buffer.length :=
                                guarded_write_length hu
                              omega
                            obtain ⟨g3, -⟩ :=
                              sbWriteLoop_ok devs.length 0 sbBuf hlen
                            cases hloop : sbWriteLoop 0 devs.length sbBuf with
                            | mk eo writes =>
                                rw [hloop] at h5 g3
                                simp only at g3
                                subst g3
                                refine ⟨devs, layoutBuf, sbBuf, hlen,
                                  by rw [hloop], ?_⟩
                                rw [h2, h3, h5, hloop]

/-- C8: in a successful multi-device format, the layout record written at
the layout sector is byte-identical on every device, and any two
superblock buffers written at the superblock sector agree at every byte
position except (at most) byte 122, the `dev_idx` — in particular the
offset field (written with the same value 8 on every device), UUIDs,
label, flags, features, embedded layout and the whole Members field are
byte-identical.  Byte 122 of device `i`'s superblock is `i mod 256`. -/
theorem format_shared_superblock_writes (flog2 sbLog2 : Nat → Nat)
    (fsUuid : Nat) (memU : Nat → Nat) (args : FmtArgs)
    (geoms : List (Option DevGeom))
    (hok : (formatModel flog2 sbLog2 fsUuid memU args geoms).error = none) :
    (∀ w1 ∈ (formatModel flog2 sbLog2 fsUuid memU args geoms).layoutWrites,
     ∀ w2 ∈ (formatModel flog2 sbLog2 fsUuid memU args geoms).layoutWrites,
       w1.2 = w2.2) ∧
    (∀ w1 ∈ (formatModel flog2 sbLog2 fsUuid memU args geoms).sbWrites,
     ∀ w2 ∈ (formatModel flog2 sbLog2 fsUuid memU args geoms).sbWrites,
       ∀ p, p ≠ 122 → w1.2[p]? = w2.2[p]?) ∧
    (∀ w ∈ (formatModel flog2 sbLog2 fsUuid memU args geoms).sbWrites,
       w.2[122]? = some (w.1 % 256)) := by
  obtain ⟨devs, layoutBuf, sbBuf, hlen, hl1, hrun⟩ :=
    formatModel_ok_shape flog2 sbLog2 fsUuid memU args geoms hok
  rw [hrun]
  obtain ⟨-, hmem⟩ := sbWriteLoop_ok devs.length 0 sbBuf hlen
  refine ⟨?_, ?_, ?_⟩
  · intro w1 hw1 w2 hw2
    simp only [layoutTrace, List.mem_map] at hw1 hw2
    obtain ⟨i1, -, h1⟩ := hw1
    obtain ⟨i2, -, h2⟩ := hw2
    rw [← h1, ← h2]
  · intro w1 hw1 w2 hw2 p hp
    rw [hmem w1 hw1, hmem w2 hw2]
    exact canonSb_agree sbBuf hlen w1.1 w2.1 p hp
  · intro w hw
    rw [hmem w hw, canonSb_getElem sbBuf hlen w.1 122, if_neg (by omega),
      if_pos rfl]

/-- Two 16-MiB devices (32768 sectors each) with default parameters. -/
def demoArgs : FmtArgs := ⟨1, 1, none, 0, 2048, 512⟩

def demoGeoms : List (Option DevGeom) := [some ⟨1, 16777216⟩, some ⟨1, 16777216⟩]

theorem guarded_wrote_ex {c : Prop} [Decidable c] {e : BchErr}
    {buf src : List Nat} {s : Nat} (hc : ¬c)
    (hs : s + src.length ≤ buf.length) :
    ∃ b2, (if c then Outcome.errored e buf else writeChecked buf s src) =
      Outcome.wrote b2 ∧ b2.length = buf.length := by
  rw [if_neg hc, writeChecked_eq _ _ _ hs]
  exact ⟨_, rfl, by simp⟩

theorem guarded2_wrote_ex {c1 c2 : Prop} [Decidable c1] [Decidable c2]
    {e1 e2 : BchErr} {buf src : List Nat} {s : Nat} (hc1 : ¬c1) (hc2 : ¬c2)
    (hs : s + src.length ≤ buf.length) :
    ∃ b2, (if c1 then Outcome.errored e1 buf
           else if c2 then Outcome.errored e2 buf
           else writeChecked buf s src) = Outcome.wrote b2 ∧
      b2.length = buf.length := by
  rw [if_neg hc1, if_neg hc2, writeChecked_eq _ _ _ hs]
  exact ⟨_, rfl, by simp⟩

@[simp] theorem obind_wrote {α : Type} (b : List Nat)
    (f : List Nat → Except BuildErr α) :
    obind (Outcome.wrote b) f = f b := rfl

theorem sb_set_flag_wrote (flag : SuperBlockFlag) (val : Nat) (buf : List Nat)
    (h1 : flag.word * 8 + 8 ≤ buf.length)
    (h2 : val ≤ (1 <<< (flag.hi - flag.lo)) - 1) :
    ∃ b2, SuperBlockFlags.set_flag flag val buf = Outcome.wrote b2 ∧
      b2.length = buf.length := by
  unfold SuperBlockFlags.set_flag
  rw [if_neg (by omega), if_neg (by omega),
    writeChecked_eq _ _ _ (by simp [leBytes_length]; omega)]
  exact ⟨_, rfl, by simp⟩


theorem buildFlags_ok (m d b : Nat) (hm : m ≤ 15) (hd : d ≤ 15)
    (hb : b ≤ 65535) :
    ∃ F, buildFlags m d b = Except.ok F ∧ F.length = 64 := by
  obtain ⟨B1, e1, l1⟩ :=
    sb_set_flag_wrote SuperBlockFlag.BTREE_NODE_SIZE b (List.replicate 64 0)
      (by simp [SuperBlockFlag.BTREE_NODE_SIZE] <;> omega)
      (by simp [SuperBlockFlag.BTREE_NODE_SIZE, Nat.one_shiftLeft] <;> omega)
  simp only [List.length_replicate] at l1
  obtain ⟨B2, e2, l2⟩ :=
    sb_set_flag_wrote SuperBlockFlag.GC_RESERVE 8 B1
      (by simp [SuperBlockFlag.GC_RESERVE] <;> omega)
      (by simp [SuperBlockFlag.GC_RESERVE, Nat.one_shiftLeft] <;> omega)
  obtain ⟨B3, e3, l3⟩ :=
    sb_set_flag_wrote SuperBlockFlag.META_REPLICAS_WANT m B2
      (by simp [SuperBlockFlag.META_REPLICAS_WANT] <;> omega)
      (by simp [SuperBlockFlag.META_REPLICAS_WANT, Nat.one_shiftLeft] <;> omega)
  obtain ⟨B4, e4, l4⟩ :=
    sb_set_flag_wrote SuperBlockFlag.DATA_REPLICAS_WANT d B3
      (by simp [SuperBlockFlag.DATA_REPLICAS_WANT] <;> omega)
      (by simp [SuperBlockFlag.DATA_REPLICAS_WANT, Nat.one_shiftLeft] <;> omega)
  obtain ⟨B5, e5, l5⟩ :=
    sb_set_flag_wrote SuperBlockFlag.META_REPLICAS_REQ 1 B4
      (by simp [SuperBlockFlag.META_REPLICAS_REQ] <;> omega)
      (by simp [SuperBlockFlag.META_REPLICAS_REQ, Nat.one_shiftLeft] <;> omega)
  obtain ⟨B6, e6, l6⟩ :=
    sb_set_flag_wrote SuperBlockFlag.DATA_REPLICAS_REQ 1 B5
      (by simp [SuperBlockFlag.DATA_REPLICAS_REQ] <;> omega)
      (by simp [SuperBlockFlag.DATA_REPLICAS_REQ, Nat.one_shiftLeft] <;> omega)
  refine ⟨B6, ?_, by omega⟩
  unfold buildFlags
  rw [e1, obind_wrote, e2, obind_wrote, e3, obind_wrote, e4, obind_wrote,
    e5, obind_wrote, e6, obind_wrote]

theorem member_set_flag_wrote (base : Nat) (flag : MemberFlag) (val : Nat)
    (buf : List Nat) (hw : flag.word = 0) (hlen : base + 56 ≤ buf.length)
    (hval : val ≤ (1 <<< (flag.hi - flag.lo)) - 1) :
    ∃ b2, MemberField.set_flag base flag val buf = Outcome.wrote b2 ∧
      b2.length = buf.length := by
  unfold MemberField.set_flag
  rw [if_neg (by omega), if_neg (by omega),
    writeChecked_eq _ _ _ (by simp only [leBytes_length]; omega)]
  exact ⟨_, rfl, by simp⟩

theorem memberLoop_wrote (memU : Nat → Nat) (ds : List PlannedDev) :
    ∀ (i : Nat) (mbuf : List Nat), 56 * (i + ds.length) ≤ mbuf.length →
    ∃ out, memberLoop memU i ds mbuf = Except.ok out ∧
      out.length = mbuf.length := by
  induction ds with
  | nil => exact fun i mbuf _ => ⟨mbuf, rfl, rfl⟩
  | cons d rest ih =>
      intro i mbuf h
      simp only [List.length_cons] at h
      obtain ⟨b1, e1, l1⟩ : ∃ b, MemberField.set_uuid (56 * i) (memU i) mbuf =
          Outcome.wrote b ∧ b.length = mbuf.length := by
        unfold MemberField.set_uuid
        rw [if_neg (by omega),
          writeChecked_eq _ _ _ (by simp only [leBytes_length]; omega)]
        exact ⟨_, rfl, by simp⟩
      obtain ⟨b2, e2, l2⟩ : ∃ b, MemberField.set_n_buckets (56 * i) d.nbuckets
          b1 = Outcome.wrote b ∧ b.length = mbuf.length := by
        unfold MemberField.set_n_buckets
        rw [if_neg (by omega),
          writeChecked_eq _ _ _ (by simp only [leBytes_length]; omega)]
        exact ⟨_, rfl, by simp [l1]⟩
      obtain ⟨b3, e3, l3⟩ : ∃ b, MemberField.set_first_bucket (56 * i) 0 b2 =
          Outcome.wrote b ∧ b.length = mbuf.length := by
        unfold MemberField.set_first_bucket
        rw [if_neg (by omega),
          writeChecked_eq _ _ _ (by simp only [leBytes_length]; omega)]
        exact ⟨_, rfl, by simp [l2]⟩
      obtain ⟨b4, e4, l4⟩ : ∃ b, MemberField.set_bucket_size (56 * i)
          (d.bucketSize % 65536) b3 = Outcome.wrote b ∧
          b.length = mbuf.length := by
        unfold MemberField.set_bucket_size
        rw [if_neg (by omega),
          writeChecked_eq _ _ _ (by simp only [leBytes_length]; omega)]
        exact ⟨_, rfl, by simp [l3]⟩
      obtain ⟨b5, e5, l5⟩ := member_set_flag_wrote (56 * i)
        MemberFlag.REPLACEMENT 0 b4 rfl (by omega) (by decide)
      obtain ⟨b6, e6, l6⟩ := member_set_flag_wrote (56 * i)
        MemberFlag.DISCARD 0 b5 rfl (by omega) (by decide)
      obtain ⟨b7, e7, l7⟩ := member_set_flag_wrote (56 * i)
        MemberFlag.DATA_ALLOWED DataTypes.DEFAULT b6 rfl (by omega) (by decide)
      obtain ⟨b8, e8, l8⟩ := member_set_flag_wrote (56 * i)
        MemberFlag.DURABILITY 2 b7 rfl (by omega) (by decide)
      obtain ⟨out, eo, lo2⟩ := ih (i + 1) b8 (by omega)
      refine ⟨out, ?_, by omega⟩
      simp only [memberLoop]
      rw [if_neg (by omega), e1, obind_wrote, e2, obind_wrote, e3, obind_wrote,
        e4, obind_wrote, e5, obind_wrote, e6, obind_wrote, e7, obind_wrote,
        e8, obind_wrote, eo]

theorem buildLayout_wrote (sbLog2 : Nat → Nat) (sbs : Nat) :
    ∃ L, buildLayout sbLog2 sbs = Except.ok L ∧ L.length = 512 := by
  obtain ⟨b1, e1, l1⟩ : ∃ b, SuperBlockLayout.set_magic (List.replicate 512 0) =
      Outcome.wrote b ∧ b.length = 512 := by
    unfold SuperBlockLayout.set_magic
    rw [if_neg (by simp only [List.length_replicate]; omega),
      writeChecked_eq _ _ _ (by
        simp only [magicBytes, List.length_cons, List.length_nil,
          List.length_replicate]; omega)]
    exact ⟨_, rfl, by simp⟩
  obtain ⟨b2, e2, l2⟩ : ∃ b, SuperBlockLayout.set_layout_type 0 b1 =
      Outcome.wrote b ∧ b.length = 512 := by
    unfold SuperBlockLayout.set_layout_type
    rw [if_neg (by omega),
      writeChecked_eq _ _ _ (by simp only [leBytes_length]; omega)]
    exact ⟨_, rfl, by simp [l1]⟩
  obtain ⟨b3, e3, l3⟩ : ∃ b, SuperBlockLayout.set_nr_superblocks 1 b2 =
      Outcome.wrote b ∧ b.length = 512 := by
    unfold SuperBlockLayout.set_nr_superblocks
    rw [if_neg (by omega),
      writeChecked_eq _ _ _ (by simp only [leBytes_length]; omega)]
    exact ⟨_, rfl, by simp [l2]⟩
  obtain ⟨b4, e4, l4⟩ : ∃ b, SuperBlockLayout.set_sb_max_size (sbLog2 sbs) b3 =
      Outcome.wrote b ∧ b.length = 512 := by
    unfold SuperBlockLayout.set_sb_max_size
    rw [if_neg (by omega),
      writeChecked_eq _ _ _ (by simp only [leBytes_length]; omega)]
    exact ⟨_, rfl, by simp [l3]⟩
  obtain ⟨b5, e5, l5⟩ : ∃ b, SuperBlockLayout.set_sb_offset 0 8 b4 =
      Outcome.wrote b ∧ b.length = 512 := by
    unfold SuperBlockLayout.set_sb_offset
    rw [if_neg (by omega),
      writeChecked_eq _ _ _ (by simp only [leBytes_length]; omega)]
    exact ⟨_, rfl, by simp [l4]⟩
  refine ⟨b5, ?_, l5⟩
  unfold buildLayout
  rw [e1, obind_wrote, e2, obind_wrote, e3, obind_wrote, e4, obind_wrote,
    e5, obind_wrote]

theorem buildSb_wrote (fsUuid : Nat) (memU : Nat → Nat) (args : FmtArgs)
    (devs : List PlannedDev) (flagsBuf layoutBuf : List Nat)
    (hlbl : args.label = none) (hf : flagsBuf.length = 64)
    (hl : layoutBuf.length = 512) (hd : devs.length ≤ 4) :
    ∃ sbSt, buildSb fsUuid memU args devs flagsBuf layoutBuf =
      Except.ok sbSt ∧ sbSt.buffer.length = 1024 := by
  obtain ⟨b1, e1, l1⟩ : ∃ b, SuperBlock.set_version 13 (List.replicate 1024 0) =
      Outcome.wrote b ∧ b.length = 1024 := by
    unfold SuperBlock.set_version
    rw [if_neg (by simp only [List.length_replicate]; omega),
      writeChecked_eq _ _ _ (by
        simp only [leBytes_length, List.length_replicate]; omega)]
    exact ⟨_, rfl, by simp⟩
  obtain ⟨b2, e2, l2⟩ : ∃ b, SuperBlock.set_version_min 13 b1 =
      Outcome.wrote b ∧ b.length = 1024 := by
    unfold SuperBlock.set_version_min
    rw [if_neg (by omega),
      writeChecked_eq _ _ _ (by simp only [leBytes_length]; omega)]
    exact ⟨_, rfl, by simp [l1]⟩
  obtain ⟨b3, e3, l3⟩ : ∃ b, SuperBlock.set_magic b2 =
      Outcome.wrote b ∧ b.length = 1024 := by
    unfold SuperBlock.set_magic
    rw [if_neg (by omega),
      writeChecked_eq _ _ _ (by
        simp only [magicBytes, List.length_cons, List.length_nil]; omega)]
    exact ⟨_, rfl, by simp [l2]⟩
  obtain ⟨b4, e4, l4⟩ : ∃ b, SuperBlock.set_block_size (args.blockSize / 512)
      b3 = Outcome.wrote b ∧ b.length = 1024 := by
    unfold SuperBlock.set_block_size
    rw [if_neg (by omega),
      writeChecked_eq _ _ _ (by simp only [leBytes_length]; omega)]
    exact ⟨_, rfl, by simp [l3]⟩
  obtain ⟨b5, e5, l5⟩ : ∃ b, SuperBlock.set_nr_devices (devs.length % 256) b4 =
      Outcome.wrote b ∧ b.length = 1024 := by
    unfold SuperBlock.set_nr_devices
    rw [if_neg (by omega),
      writeChecked_eq _ _ _ (by simp only [leBytes_length]; omega)]
    exact ⟨_, rfl, by simp [l4]⟩
  obtain ⟨b6, e6, l6⟩ : ∃ b, SuperBlock.set_uuid fsUuid b5 =
      Outcome.wrote b ∧ b.length = 1024 := by
    unfold SuperBlock.set_uuid
    rw [if_neg (by omega),
      writeChecked_eq _ _ _ (by simp only [leBytes_length]; omega)]
    exact ⟨_, rfl, by simp [l5]⟩
  obtain ⟨b7, e7, l7⟩ : ∃ b, SuperBlock.set_user_uuid args.uuid b6 =
      Outcome.wrote b ∧ b.length = 1024 := by
    unfold SuperBlock.set_user_uuid
    rw [if_neg (by omega),
      writeChecked_eq _ _ _ (by simp only [leBytes_length]; omega)]
    exact ⟨_, rfl, by simp [l6]⟩
  obtain ⟨b8, e8, l8⟩ : ∃ b, SuperBlock.set_time_base_p 1 b7 =
      Outcome.wrote b ∧ b.length = 1024 := by
    unfold SuperBlock.set_time_base_p
    rw [if_neg (by omega),
      writeChecked_eq _ _ _ (by simp only [leBytes_length]; omega)]
    exact ⟨_, rfl, by simp [l7]⟩
  obtain ⟨b9, e9, l9⟩ : ∃ b, SuperBlock.set_flags flagsBuf b8 =
      Outcome.wrote b ∧ b.length = 1024 := by
    unfold SuperBlock.set_flags
    rw [if_neg (by omega), writeChecked_eq _ _ _ (by omega)]
    exact ⟨_, rfl, by simp [l8]⟩
  obtain ⟨b10, e10, l10⟩ : ∃ b, SuperBlock.set_layout layoutBuf b9 =
      Outcome.wrote b ∧ b.length = 1024 := by
    unfold SuperBlock.set_layout
    rw [if_neg (by omega), writeChecked_eq _ _ _ (by omega)]
    exact ⟨_, rfl, by simp [l9]⟩
  obtain ⟨b11, e11, l11⟩ : ∃ b, SuperBlock.set_feature 0 Features.ALL b10 =
      Outcome.wrote b ∧ b.length = 1024 := by
    unfold SuperBlock.set_feature
    rw [if_neg (by omega),
      writeChecked_eq _ _ _ (by simp only [leBytes_length]; omega)]
    exact ⟨_, rfl, by simp [l10]⟩
  obtain ⟨m, em, lm⟩ := memberLoop_wrote memU devs 0
    (List.replicate (56 * devs.length) 0) (by simp)
  simp only [List.length_replicate] at lm
  obtain ⟨sb2, ea, la⟩ : ∃ s, SuperBlock.add_field 1 m ⟨0, b11⟩ =
      StOutcome.ok s ∧ s.buffer.length = 1024 := by
    unfold SuperBlock.add_field
    rw [if_neg (show ¬((⟨0, b11⟩ : SuperBlockSt).buffer.length <
      752 + (⟨0, b11⟩ : SuperBlockSt).lastFieldOffset + 8 + m.length) by
        simp only []; omega)]
    exact ⟨_, rfl, by simp [l11]⟩
  refine ⟨sb2, ?_, la⟩
  simp only [buildSb, e1, obind_wrote, e2, e3, e4, e5, e6, e7, hlbl,
    setLabelOpt, e8, e9, e10, e11, em, ea]

/-- The plan both demo devices get: native block size 1 sector, 32768
sectors, 512-byte buckets, 64 buckets per... (32768 sectors / 64 bucket
sectors). -/
def demoDev : PlannedDev := ⟨1, 32768, 512, 64⟩

theorem demo_plan :
    planPhase (fun _ => 0) demoArgs.blockSize demoGeoms =
      Except.ok [demoDev, demoDev] := by rfl

theorem demo_format_ok :
    (formatModel (fun _ => 0) (fun _ => 11) 0 (fun i => i) demoArgs
      demoGeoms).error = none := by
  have hmx : ([demoDev, demoDev].map (fun d => d.blockSize)).max? =
      some 1 := by rfl
  have h2 := formatModel_eq_of_maxed (fun _ => 0) (fun _ => 11) 0 (fun i => i)
    demoArgs demoGeoms [demoDev, demoDev] 1 demo_plan hmx
  rw [if_neg (by decide)] at h2
  obtain ⟨F, hfl, hF⟩ := buildFlags_ok demoArgs.metadataReplicas
    demoArgs.dataReplicas
    (min ((([demoDev, demoDev].map (fun d => d.bucketSize)).min?).getD 512)
      512) (by decide) (by decide)
    (le_trans (min_le_right _ _) (by norm_num))
  obtain ⟨L, hlay, hL⟩ := buildLayout_wrote (fun _ => 11)
    demoArgs.superblockSize
  have h3 := formatStage1_eq_of_built (fun _ => 11) 0 (fun i => i) demoArgs
    [demoDev, demoDev] F L hfl hlay
  obtain ⟨sbSt, hsb, hsbl⟩ := buildSb_wrote 0 (fun i => i) demoArgs
    [demoDev, demoDev] F L rfl hF hL (by decide)
  obtain ⟨sbBuf, hu, hul⟩ : ∃ b, SuperBlock.set_u64s sbSt =
      Outcome.wrote b ∧ b.length = 1024 := by
    unfold SuperBlock.set_u64s
    rw [if_neg (by omega),
      writeChecked_eq _ _ _ (by simp only [leBytes_length]; omega)]
    exact ⟨_, rfl, by simp [hsbl]⟩
  rw [h2, h3, formatStage2_eq_of_wrote 0 (fun i => i) demoArgs
    [demoDev, demoDev] F L _ _ sbSt sbBuf hsb hu]
  obtain ⟨g1, -⟩ := sbWriteLoop_ok ([demoDev, demoDev].length) 0 sbBuf hul
  cases hloop : sbWriteLoop 0 [demoDev, demoDev].length sbBuf with
  | mk eo writes =>
      rw [hloop] at g1
      simp only at g1
      subst g1
      rfl

/-- Witness for `format_shared_superblock_writes`: two 16-MiB devices
formatted with default parameters succeed, so the layout writes are
pairwise identical, the superblock writes agree outside byte 122, and
byte 122 of device `i` holds `i`. -/
theorem format_shared_superblock_writes_witness :
    (formatModel (fun _ => 0) (fun _ => 11) 0 (fun i => i) demoArgs
        demoGeoms).error = none ∧
    ((∀ w1 ∈ (formatModel (fun _ => 0) (fun _ => 11) 0 (fun i => i) demoArgs
          demoGeoms).layoutWrites,
      ∀ w2 ∈ (formatModel (fun _ => 0) (fun _ => 11) 0 (fun i => i) demoArgs
          demoGeoms).layoutWrites, w1.2 = w2.2) ∧
     (∀ w1 ∈ (formatModel (fun _ => 0) (fun _ => 11) 0 (fun i => i) demoArgs
          demoGeoms).sbWrites,
      ∀ w2 ∈ (formatModel (fun _ => 0) (fun _ => 11) 0 (fun i => i) demoArgs
          demoGeoms).sbWrites, ∀ p, p ≠ 122 → w1.2[p]? = w2.2[p]?) ∧
     (∀ w ∈ (formatModel (fun _ => 0) (fun _ => 11) 0 (fun i => i) demoArgs
          demoGeoms).sbWrites, w.2[122]? = some (w.1 % 256))) :=
  ⟨demo_format_ok, format_shared_superblock_writes (fun _ => 0) (fun _ => 11) 0
    (fun i => i) demoArgs demoGeoms demo_format_ok⟩
